import Mathlib

/-!
Shallow embedding of `pyqode/language_server/backend/workers.py`, the
LSP session manager of the pyqode.language_server repository, together
with theorems settling the specification claims about it.

Modelling conventions:
* Python module-level globals (`server_status`, `open_documents`,
  `diagnostics`, `server_cmd`, `project_folders`, ...) become fields of
  an explicit `WorkerState` threaded through every operation.
* The external world (the spawned subprocess, the filesystem, the
  language server's responses) is an `Env` record; each RPC that expects
  a response is an oracle value of type `CmdOutcome`.
* A Python function that can raise returns `Except PyErr`; an uncaught
  Python exception is the `.error` case.
* Python dicts keyed by strings become association lists.
* Outgoing `textDocument/*` traffic is recorded in a message log so that
  claims about which synchronisation messages are sent can be stated.
-/

namespace LangServer

/-! ### Constants from the top of workers.py -/

def WARNING : Nat := 1
def ERROR : Nat := 2
def MAX_COMPLETIONS : Nat := 10
def RESPONSE_TIMEOUT : Nat := 10
def SERVER_NOT_STARTED : Nat := 0
def SERVER_RUNNING : Nat := 1
def SERVER_ERROR : Nat := 2

/-- `DiagnosticSeverity.Error` from the LSP protocol (pylspclient). -/
def DiagnosticSeverityError : Int := 1

def ICON_PATH : String × String := ("path", ":/pyqode_python_icons/rc/path.png")
def ICON_CLASS : String × String := ("code-class", ":/pyqode_python_icons/rc/class.png")
def ICON_FUNC : String × String := ("code-function", ":/pyqode_python_icons/rc/func.png")
def ICON_VAR : String × String := ("code-variable", ":/pyqode_python_icons/rc/var.png")
def ICON_KEYWORD : String × String := ("quickopen", ":/pyqode_python_icons/rc/keyword.png")

/-- Numeric codes of the `CompletionItemKind` enumeration of the LSP
protocol, as used by the `ICONS` dict keys in workers.py. -/
def KIND_FILE : Nat := 17
def KIND_CLASS : Nat := 7
def KIND_FUNCTION : Nat := 3
def KIND_VARIABLE : Nat := 6
def KIND_KEYWORD : Nat := 14

/-- The `ICONS` dict of workers.py, keyed by completion item kind. -/
def ICONS : List (Nat × (String × String)) :=
  [(KIND_FILE, ICON_PATH), (KIND_CLASS, ICON_CLASS), (KIND_FUNCTION, ICON_FUNC),
   (KIND_VARIABLE, ICON_VAR), (KIND_KEYWORD, ICON_KEYWORD)]

/-! ### Python exceptions that can escape the worker functions -/

/-- Exceptions of the Python runtime that the worker code can raise or
catch: `KeyError` (missing dict key), `IndexError` (bad list index),
`TypeError` (raised by some language servers inside pylspclient) and
`AttributeError` (an attribute access such as `client.didChange` while
the module-level `client` global is `None`). -/
inductive PyErr where
  | keyError
  | indexError
  | typeErr
  | attrError
deriving DecidableEq, Repr

/-- True iff the computation finished without an uncaught exception. -/
def noRaise {α : Type} : Except PyErr α → Bool
  | .ok _ => true
  | .error _ => false

/-! ### Python dict operations on `open_documents` (path => version) -/

/-- The `open_documents` dict: association list from document path to
version counter, first binding wins. -/
abbrev Docs := List (String × Nat)

/-- Dict lookup, `d.get(k)`. -/
def dictFind (d : Docs) (k : String) : Option Nat :=
  match d with
  | [] => none
  | (k2, v) :: rest => if k2 = k then some v else dictFind rest k

/-- Dict membership, `k in d`. -/
def dictMem (d : Docs) (k : String) : Bool :=
  (dictFind d k).isSome

/-- Dict assignment, `d[k] = v`. -/
def dictSet (d : Docs) (k : String) (v : Nat) : Docs :=
  match d with
  | [] => [(k, v)]
  | (k2, v2) :: rest =>
      if k2 = k then (k2, v) :: rest else (k2, v2) :: dictSet rest k v

/-- Dict deletion, `del d[k]` (the callers check membership first). -/
def dictDel (d : Docs) (k : String) : Docs :=
  match d with
  | [] => []
  | (k2, v2) :: rest => if k2 = k then rest else (k2, v2) :: dictDel rest k

/-- `d[k] += 1`: reads (raising `KeyError` when the key is absent) then
writes back the incremented value; returns the new value and the dict. -/
def dictIncr (d : Docs) (k : String) : Except PyErr (Nat × Docs) :=
  match dictFind d k with
  | none => .error .keyError
  | some v => .ok (v + 1, dictSet d k (v + 1))

/-! ### Protocol record shapes (pylspclient lsp_structs) -/

/-- `TextDocumentItem(uri, languageId, version, text)`. -/
structure TextDocumentItem where
  uri : String
  languageId : String
  version : Nat
  text : String
deriving DecidableEq, Repr

/-- `VersionedTextDocumentIdentifier(uri, version)`. -/
structure VersionedTextDocumentIdentifier where
  uri : String
  version : Nat
deriving DecidableEq, Repr

/-- `TextDocumentContentChangeEvent(None, None, text)`: a whole-document
replacement carrying only the new text. -/
structure TextDocumentContentChangeEvent where
  text : String
deriving DecidableEq, Repr

/-- The `documentation` attribute of a signature: some servers give a
plain string, others a dict with a `value` entry, others a dict without
one (workers.py lines 174-180). -/
inductive DocField where
  | plain (s : String)
  | dictValue (v : String)
  | dictOther
deriving DecidableEq, Repr

/-- One parameter of a signature. -/
structure ParamInfo where
  label : String
deriving DecidableEq, Repr

/-- One signature of a `signatureHelp` response. -/
structure SignatureInfo where
  label : String
  parameters : List ParamInfo
  documentation : DocField
deriving DecidableEq, Repr

/-- A `signatureHelp` response body. `activeSignature` is an arbitrary
server-supplied integer used as a Python list index. -/
structure SignatureHelp where
  signatures : List SignatureInfo
  activeSignature : Int
  activeParameter : Int
deriving DecidableEq, Repr

/-- One completion item of a completion response. An absent or empty
`insertText` is modelled as the empty string (both are falsy in Python,
which is the test `if not text` used by `from_completion`). -/
structure CompletionItemS where
  label : String
  insertText : String
  kind : Option Nat
  detail : Option String
deriving DecidableEq, Repr

/-- Shape of a completion response: the TypeScript server returns the
items directly as a list, other servers wrap them in an object with an
`items` attribute (workers.py lines 294-297). -/
inductive CompletionResponse where
  | bare (items : List CompletionItemS)
  | withItems (items : List CompletionItemS)
deriving DecidableEq, Repr

/-- One symbol of a `documentSymbol` response, with the fields the
worker reads: `s.name`, `s.kind.name`, `s.location.range.start.line`
and `s.containerName`. -/
structure SymbolInfo where
  name : String
  kind : String
  line : Nat
  containerName : Option String
deriving DecidableEq, Repr

/-- One diagnostic message of a `publishDiagnostics` notification, with
the fields the worker reads, flattened from `msg['message']`,
`msg['severity']`, `msg['range']['start']['line']`,
`msg['range']['start']['character']`, `msg['range']['end']['character']`. -/
structure Diag where
  message : String
  severity : Int
  rangeStartLine : Nat
  rangeStartCharacter : Nat
  rangeEndCharacter : Nat
deriving DecidableEq, Repr

/-- A `textDocument/publishDiagnostics` notification body. -/
structure PublishParams where
  uri : String
  diagnostics : List Diag
deriving DecidableEq, Repr

/-! ### Outgoing message log -/

/-- Outgoing `textDocument/*` traffic, recorded so that claims about
which synchronisation messages reach the server can be stated.
`sigRequest`/`complRequest`/`symRequest` carry the document item and the
request position exactly as handed to pylspclient. -/
inductive Msg where
  | didOpen (td : TextDocumentItem)
  | didChange (tid : VersionedTextDocumentIdentifier)
      (change : TextDocumentContentChangeEvent)
  | sigRequest (td : TextDocumentItem) (line : Nat) (column : Nat)
  | complRequest (td : TextDocumentItem) (line : Nat) (column : Nat)
      (triggerCharacter : Bool)
  | symRequest (td : TextDocumentItem)
deriving DecidableEq, Repr

/-! ### Worker state and environment -/

/-- The module-level mutable globals of workers.py, plus the message
log. `diagnostics = none` models the empty dict `{}` (the "pending"
value); `some p` models the payload stored by `on_publish_diagnostics`. -/
structure WorkerState where
  server_status : Nat
  open_documents : Docs
  diagnostics : Option PublishParams
  server_cmd : Option String
  project_folders : List String
  server_pid : Option Nat
  server_capabilities : Option String
  log : List Msg
deriving DecidableEq, Repr

/-- Outcome of one server request as observed at the pylspclient call
site inside `_run_command`: a returned value, a raised
`lsp_structs.ResponseError`, a raised `TimeoutError`, or a raised
`TypeError`. -/
inductive CmdOutcome (α : Type) where
  | ok (a : α)
  | respError
  | timeout
  | typeErr
deriving DecidableEq, Repr

/-- The external world: subprocess spawning, the LSP handshake, the
filesystem, the temporary-file path, the configured language id, and
the server's response to each request (indexed by attempt number for
the operations that retry). -/
structure Env where
  spawn_ok : Bool
  pid : Nat
  init_ok : Bool
  capabilities : String
  fs : List String
  tmp_path : String
  langid : String
  sig : Nat → CmdOutcome (Option SignatureHelp)
  compl : Nat → CmdOutcome (Option CompletionResponse)
  sym : CmdOutcome (Option (List SymbolInfo))

/-- The initial module state: `open_documents = {'': 0}`, empty
diagnostics dict, no server. -/
def initial_state : WorkerState :=
  { server_status := SERVER_NOT_STARTED
    open_documents := [("", 0)]
    diagnostics := none
    server_cmd := none
    project_folders := []
    server_pid := none
    server_capabilities := none
    log := [] }

/-! ### Path and URI helpers -/

/-- Python `s.startswith(pre)`, written over the character lists so
that it evaluates by kernel reduction. -/
def pyStartsWith (s pre : String) : Bool :=
  pre.data.isPrefixOf s.data

/-- Python `s.endswith(suf)`, written over the character lists so that
it evaluates by kernel reduction. -/
def pyEndsWith (s suf : String) : Bool :=
  suf.data.isSuffixOf s.data

/-- `_folders_to_uris(paths)`. -/
def _folders_to_uris (paths : List String) : List String :=
  paths.map (fun path => if pyStartsWith path "file://" then path
                         else "file://" ++ path)

/-- `_path_to_uri(path)`: keep a URI, turn an existing path into a URI,
and fall back to the process-wide temporary file otherwise. -/
def _path_to_uri (fs : List String) (tmp_path : String) (path : String) : String :=
  if pyStartsWith path "file://" then path
  else if path ∈ fs then "file://" ++ path
  else "file://" ++ tmp_path

/-- The trailing-newline normalisation applied before any content is
sent (`if not code.endswith(chr 10): code += chr 10`). -/
def ensureNewline (code : String) : String :=
  if pyEndsWith code "\n" then code else code ++ "\n"

/-- `_text_document(path, code)`: normalises the text, increments the
path's version counter (raising `KeyError` when the path was never
registered) and builds the `TextDocumentItem`. -/
def _text_document (env : Env) (docs : Docs) (path code : String) :
    Except PyErr (TextDocumentItem × Docs) :=
  match dictIncr docs path with
  | .error e => .error e
  | .ok (v, docs2) =>
      .ok ({ uri := _path_to_uri env.fs env.tmp_path path
             languageId := env.langid
             version := v
             text := ensureNewline code }, docs2)

/-- `_text_identifier(path)`: increments the path's version counter and
builds the `VersionedTextDocumentIdentifier` with uri `'file://' + path`. -/
def _text_identifier (docs : Docs) (path : String) :
    Except PyErr (VersionedTextDocumentIdentifier × Docs) :=
  match dictIncr docs path with
  | .error e => .error e
  | .ok (v, docs2) => .ok ({ uri := "file://" ++ path, version := v }, docs2)

/-- `_everything_changed(code)`: a whole-document change event. -/
def _everything_changed (code : String) : TextDocumentContentChangeEvent :=
  { text := ensureNewline code }

/-! ### Lifecycle: start / restart -/

/-- `start_language_server(cmd, folders)`: spawn, then initialize. On a
spawn failure the status becomes `SERVER_ERROR` and nothing else
changes; on an initialize failure the status becomes `SERVER_ERROR`
after the project folders were already recorded; on success the status
is `SERVER_RUNNING` and `server_cmd` records the command. -/
def start_language_server (env : Env) (cmd : String) (folders : List String)
    (s : WorkerState) : WorkerState :=
  if env.spawn_ok = false then
    { s with server_status := SERVER_ERROR }
  else
    let s1 := { s with server_status := SERVER_RUNNING
                       server_pid := some env.pid
                       project_folders := _folders_to_uris folders }
    if env.init_ok = false then
      { s1 with server_status := SERVER_ERROR }
    else
      { s1 with server_capabilities := some env.capabilities
                server_cmd := some cmd }

/-- `restart_language_server()`: kill, mark not-started, start again
with the last command and folders. Note that the open-document registry
is left untouched by the Python code.

The module-level `client` handle is not a `WorkerState` field because
between operations its presence is determined: line 120 of workers.py
sets `client = None` and `start_language_server` re-creates it (line
92) exactly when the spawn succeeds, so `client` is `None` only while
`server_status ≠ SERVER_RUNNING`, and every operation body is behind a
`server_status == SERVER_RUNNING` guard. Within one operation, however,
a `TimeoutError`-triggered restart whose respawn fails leaves `client`
as `None` while the operation continues; the operations therefore
thread an explicit `alive` flag, updated by `client_after`, and the
call sites that read `client` raise `AttributeError` when it is gone. -/
def restart_language_server (env : Env) (s : WorkerState) : WorkerState :=
  start_language_server env (s.server_cmd.getD "") s.project_folders
    { s with server_status := SERVER_NOT_STARTED }

/-- Whether the module-level `client` handle is still set after one
request whose outcome was `o`, given it was set (`alive`) before: a
`TimeoutError` triggers `restart_language_server`, which first clears
the handle (workers.py line 120) and re-creates it (line 92) only when
the respawn succeeds — whether or not the subsequent initialize
succeeds; every other outcome leaves the handle alone. -/
def client_after {α : Type} (env : Env) (o : CmdOutcome α) (alive : Bool) :
    Bool :=
  match o with
  | .timeout => alive && env.spawn_ok
  | _ => alive

/-- `_run_command(name, fnc, args)`: returns the response (which the
server may already have given as `None`); converts a `ResponseError` to
`None`; converts a `TimeoutError` to `None` and restarts the server;
lets any other exception (e.g. `TypeError`) propagate. A trapped error
and a server `null` are indistinguishable to the caller, exactly as in
the Python code. -/
def _run_command {β : Type} (env : Env) (out : CmdOutcome (Option β))
    (s : WorkerState) : Except PyErr (Option β × WorkerState) :=
  match out with
  | .ok a => .ok (a, s)
  | .respError => .ok (none, s)
  | .timeout => .ok (none, restart_language_server env s)
  | .typeErr => .error .typeErr

/-! ### Editor-facing request records -/

/-- The `request_data` of a calltip request. -/
structure CalltipRequest where
  code : String
  line : Nat
  column : Nat
  path : String
deriving DecidableEq, Repr

/-- The arguments of `CompletionProvider.complete`. -/
structure CompletionRequest where
  code : String
  line : Nat
  column : Nat
  path : String
  prfx : String
  triggered_by_symbol : Bool
deriving DecidableEq, Repr

/-- The `request_data` of a symbols request; `kind` is the allowed
symbol-kind-name filter. -/
structure SymbolsRequest where
  code : String
  path : String
  kind : List String
deriving DecidableEq, Repr

/-- The `request_data` of `run_diagnostics`. -/
structure DiagRequest where
  path : String
  code : String
deriving DecidableEq, Repr

/-- The `request_data` of `poll_diagnostics`. -/
structure PollRequest where
  ignore_rules : List String
deriving DecidableEq, Repr

/-- The `request_data` of `close_document`. -/
structure CloseRequest where
  path : String
deriving DecidableEq, Repr

/-- The `request_data` of `change_project_folders`. -/
structure FoldersRequest where
  folders : List String
deriving DecidableEq, Repr

/-! ### Calltips -/

/-- Python list indexing `l[i]` with an arbitrary integer index:
negative indices count from the end; an out-of-range index raises
`IndexError`. -/
def pyIndex {α : Type} (l : List α) (i : Int) : Except PyErr α :=
  let j : Int := if i < 0 then i + l.length else i
  if h : 0 ≤ j ∧ j < l.length then
    .ok (l.get ⟨j.toNat, by omega⟩)
  else
    .error .indexError

/-- Decidable in-range test matching `pyIndex` success. -/
def pyIndexOk {α : Type} (l : List α) (i : Int) : Bool :=
  let j : Int := if i < 0 then i + l.length else i
  decide (0 ≤ j) && decide (j < (l.length : Int))

/-- The signature-documentation flattening of workers.py lines 174-180:
a plain string stays, a dict yields its `value` entry or the empty
string. -/
def flattenDoc : DocField → String
  | .plain s => s
  | .dictValue v => v
  | .dictOther => ""

/-- The value calltips returns on success: `(label, parameter labels,
documentation, activeParameter, column)`; `none` models the empty
tuple `()`. -/
abbrev CalltipResult := Option (String × List String × String × Int × Nat)

/-- Shortcut instance keeping instance-search terms small. -/
instance : DecidableEq CalltipResult := inferInstance

/-- The `try ... except TypeError` wrapper around `_run_command` inside
`calltips`: a `TypeError` is caught (yielding `none` at the state before
the call); every other exception propagates. -/
def catchTypeErr (r : Except PyErr (Option SignatureHelp × WorkerState))
    (s : WorkerState) :
    Except PyErr (Option (Option SignatureHelp) × WorkerState) :=
  match r with
  | .ok (v, s2) => .ok (some v, s2)
  | .error .typeErr => .ok (none, s)
  | .error e => .error e

/-- The loop-exit test of workers.py line 165:
`signatures is not None and signatures.signatures`. The outer `none`
is the caught-TypeError case. -/
def keepSig (r : Option (Option SignatureHelp)) : Option SignatureHelp :=
  match r with
  | some (some sh) => if sh.signatures.isEmpty then none else some sh
  | _ => none

/-- Lines 173-187 of workers.py: pick the active signature (a Python
list indexing that can raise `IndexError`), flatten its documentation
and build the result tuple. -/
def finish_calltips (sh : SignatureHelp) (column : Nat) (s : WorkerState) :
    Except PyErr (CalltipResult × WorkerState) :=
  match pyIndex sh.signatures sh.activeSignature with
  | .error e => .error e
  | .ok sig =>
      .ok (some (sig.label, sig.parameters.map (fun p => p.label),
                 flattenDoc sig.documentation, sh.activeParameter, column), s)

/-- The `client.didChange(_text_identifier(**request_data),
[_everything_changed(**request_data)])` call sites: Python first
evaluates the attribute `client.didChange` — raising `AttributeError`
when a failed respawn left `client = None` (`alive = false`) — and only
then the arguments, so no version counter is touched on that path;
otherwise the version counter is incremented and the notification
logged. -/
def send_did_change (alive : Bool) (s : WorkerState) (path code : String) :
    Except PyErr WorkerState :=
  if alive = false then .error .attrError
  else
    match _text_identifier s.open_documents path with
    | .error e => .error e
    | .ok (tid, docs) =>
        .ok { s with open_documents := docs
                     log := s.log ++
                       [.didChange tid (_everything_changed code)] }

/-- The `else:` clause of the `for attempt in range(2)` loop of
`calltips`: after the second failed attempt the loop body still sends
its `didChange` (raising `AttributeError` when the client handle is
gone), then the function returns the empty tuple. -/
def calltips_giveup (rd : CalltipRequest) (alive : Bool) (s3 : WorkerState) :
    Except PyErr (CalltipResult × WorkerState) :=
  match send_did_change alive s3 rd.path rd.code with
  | .error e => .error e
  | .ok s4 => .ok (none, s4)

/-- The second iteration of the `for attempt in range(2)` loop of
`calltips`, entered after a failed first attempt: `didChange` (which
raises `AttributeError` when attempt 1's timeout-triggered restart
failed to respawn and left `client = None`), retry the `signatureHelp`
request (with the document item built before the loop; the handle is
necessarily alive here since the `didChange` succeeded), and either
normalise a non-empty response or give up. -/
def calltips_second (env : Env) (rd : CalltipRequest) (td : TextDocumentItem)
    (alive : Bool) (s1 : WorkerState) :
    Except PyErr (CalltipResult × WorkerState) :=
  match send_did_change alive s1 rd.path rd.code with
  | .error e => .error e
  | .ok s2 =>
      let s2 := { s2 with log := s2.log ++ [.sigRequest td rd.line rd.column] }
      match catchTypeErr (_run_command env (env.sig 1) s2) s2 with
      | .error e => .error e
      | .ok (r1, s3) =>
          match keepSig r1 with
          | some sh => finish_calltips sh rd.column s3
          | none => calltips_giveup rd (client_after env (env.sig 1) alive) s3

/-- `calltips(request_data)`: guard on the server status, build the
document item, then up to two `signatureHelp` attempts with a
full-document `didChange` after every failed attempt (including, in the
source, after the second one); a `TypeError` from the request counts as
a failed attempt; a non-empty response ends the loop and is normalised
by `finish_calltips`. The client handle is present at entry (see
`restart_language_server`); after attempt 1 it is gone exactly when
that attempt timed out and the respawn failed, in which case the
`didChange` of `calltips_second` raises `AttributeError`. -/
def calltips (env : Env) (rd : CalltipRequest) (s : WorkerState) :
    Except PyErr (CalltipResult × WorkerState) :=
  if s.server_status ≠ SERVER_RUNNING then .ok (none, s)
  else
    match _text_document env s.open_documents rd.path rd.code with
    | .error e => .error e
    | .ok (td, docs0) =>
        let s0 := { s with open_documents := docs0 }
        let s0 := { s0 with log := s0.log ++ [.sigRequest td rd.line rd.column] }
        match catchTypeErr (_run_command env (env.sig 0) s0) s0 with
        | .error e => .error e
        | .ok (r0, s1) =>
            match keepSig r0 with
            | some sh => finish_calltips sh rd.column s1
            | none =>
                calltips_second env rd td (client_after env (env.sig 0) true) s1

/-! ### Symbols -/

/-- The tuples `symbols` returns. -/
abbrev SymbolTuple := String × String × Nat × Option String

/-- `symbols(request_data)`: guard, document item, one `documentSymbol`
request, then filter by the allowed kind names. A `None` response (from
a server null or from a trapped `ResponseError`/`TimeoutError`) yields
the empty list. -/
def symbols (env : Env) (rd : SymbolsRequest) (s : WorkerState) :
    Except PyErr (List SymbolTuple × WorkerState) :=
  if s.server_status ≠ SERVER_RUNNING then .ok ([], s)
  else
    match _text_document env s.open_documents rd.path rd.code with
    | .error e => .error e
    | .ok (td, docs0) =>
        let s0 := { s with open_documents := docs0 }
        let s0 := { s0 with log := s0.log ++ [.symRequest td] }
        match _run_command env env.sym s0 with
        | .error e => .error e
        | .ok (r, s1) =>
            match r with
            | some syms =>
                .ok ((syms.filter (fun x => x.kind ∈ rd.kind)).map
                      (fun x => (x.name, x.kind, x.line, x.containerName)), s1)
            | none => .ok ([], s1)

/-! ### Completion -/

/-- `CompletionMatch.from_completion`, minus the `str` subclassing:
prefer `insertText` over `label` when non-empty, look the icon up by
kind with `ICON_VAR` as default, keep `detail` as the tooltip. -/
structure CompletionMatch where
  text : String
  icon : String × String
  tooltip : Option String
deriving DecidableEq, Repr

/-- `ICONS.get(kind, ICON_VAR)`. -/
def iconFor (kind : Option Nat) : String × String :=
  match kind with
  | none => ICON_VAR
  | some k =>
      match ICONS.find? (fun kv => kv.fst = k) with
      | some kv => kv.snd
      | none => ICON_VAR

def CompletionMatch.from_completion (c : CompletionItemS) : CompletionMatch :=
  let text := if c.insertText = "" then c.label else c.insertText
  { text := text, icon := iconFor c.kind, tooltip := c.detail }

/-- The shape normalisation of workers.py lines 294-297: `if
hasattr(completions, 'items'): completions = completions.items`. -/
def normalize_completions : CompletionResponse → List CompletionItemS
  | .bare items => items
  | .withItems items => items

/-- Deduplication as performed by the Python `set` of
`CompletionMatch` values: the class subclasses `str`, so set membership
compares by the match text only, and inserting a duplicate text keeps
the first-inserted match. `seen` accumulates the texts already kept. -/
def dedup_by_text (seen : List String) :
    List CompletionMatch → List CompletionMatch
  | [] => []
  | c :: rest =>
      if c.text ∈ seen then dedup_by_text seen rest
      else c :: dedup_by_text (c.text :: seen) rest

/-- The completion candidates handed to the fuzzy matcher. The Python
code builds a `set` of `CompletionMatch` values and lets
`difflib.get_close_matches` rank them against the prefix; the iteration
order of a Python `set` of strings is not deterministic across
processes (string hashing is randomised), so the ranked list is not a
function of the request. The model therefore stops at the deduplicated
candidate collection (by text, first occurrence kept, in insertion
order), which is the input of the ranking step and what the claims
about `complete` concern. -/
def complete_candidates (resp : CompletionResponse) : List CompletionMatch :=
  dedup_by_text []
    ((normalize_completions resp).map CompletionMatch.from_completion)

/-- Result of `complete`: either one of the literal `[]` returns, or
the candidate collection reaching the fuzzy-match step. -/
inductive ComplResult where
  | empty
  | candidates (l : List CompletionMatch)
deriving DecidableEq, Repr

/-- The `else:` clause of the retry loop of
`CompletionProvider.complete`: after the second failed attempt the loop
body still sends its `didChange` (raising `AttributeError` when the
client handle is gone), then the function returns `[]`. -/
def complete_giveup (rd : CompletionRequest) (alive : Bool) (s3 : WorkerState) :
    Except PyErr (ComplResult × WorkerState) :=
  match send_did_change alive s3 rd.path rd.code with
  | .error e => .error e
  | .ok s4 => .ok (.empty, s4)

/-- The second iteration of the retry loop of
`CompletionProvider.complete`, entered after a `None` first response:
`didChange` (which raises `AttributeError` when attempt 1's
timeout-triggered restart failed to respawn), retry the `completion`
request, and either keep the response's candidates or give up. -/
def complete_second (env : Env) (rd : CompletionRequest) (td : TextDocumentItem)
    (column : Nat) (alive : Bool) (s1 : WorkerState) :
    Except PyErr (ComplResult × WorkerState) :=
  match send_did_change alive s1 rd.path rd.code with
  | .error e => .error e
  | .ok s2 =>
      let s2 := { s2 with
                  log := s2.log ++
                    [.complRequest td rd.line column rd.triggered_by_symbol] }
      match _run_command env (env.compl 1) s2 with
      | .error e => .error e
      | .ok (r1, s3) =>
          match r1 with
          | some resp => .ok (.candidates (complete_candidates resp), s3)
          | none => complete_giveup rd (client_after env (env.compl 1) alive) s3

/-- `CompletionProvider.complete(...)`: guard, advance the column past
the prefix, build the document item, then up to two `completion`
requests with a full-document `didChange` after every failed attempt
(the dead `except lsp_structs.ResponseError` handler around
`_run_command` is not modelled: `_run_command` already traps that
error, so a `TypeError` is the only exception that can escape the
attempt). -/
def complete (env : Env) (rd : CompletionRequest) (s : WorkerState) :
    Except PyErr (ComplResult × WorkerState) :=
  if s.server_status ≠ SERVER_RUNNING then .ok (.empty, s)
  else
    let column := rd.column + rd.prfx.length
    match _text_document env s.open_documents rd.path rd.code with
    | .error e => .error e
    | .ok (td, docs0) =>
        let s0 := { s with open_documents := docs0 }
        let s0 := { s0 with
                    log := s0.log ++
                      [.complRequest td rd.line column rd.triggered_by_symbol] }
        match _run_command env (env.compl 0) s0 with
        | .error e => .error e
        | .ok (r0, s1) =>
            match r0 with
            | some resp => .ok (.candidates (complete_candidates resp), s1)
            | none =>
                complete_second env rd td column
                  (client_after env (env.compl 0) true) s1

/-! ### Diagnostics -/

/-- `on_publish_diagnostics(d)`: overwrite the buffer wholesale. -/
def on_publish_diagnostics (d : PublishParams) (s : WorkerState) : WorkerState :=
  { s with diagnostics := some d }

/-- The record `run_diagnostics` returns. -/
structure DiagStartResponse where
  server_status : Nat
  server_pid : Option Nat
  server_capabilities : Option String
deriving DecidableEq, Repr

/-- `run_diagnostics(request_data)`: guard, clear the diagnostics
buffer, then sync the document. The source reads
`if path in open_documents and False:` — the `didChange` branch is
unreachable, so the worker always resets the path's version counter to
0 and sends a `didOpen`; the transcription keeps the dead test. -/
def run_diagnostics (env : Env) (rd : DiagRequest) (s : WorkerState) :
    Except PyErr (DiagStartResponse × WorkerState) :=
  if s.server_status ≠ SERVER_RUNNING then
    .ok ({ server_status := s.server_status
           server_pid := none
           server_capabilities := none }, s)
  else
    let s := { s with diagnostics := none }
    -- the client handle is present whenever the status is RUNNING at
    -- operation entry and run_diagnostics performs no restarts, so the
    -- (dead) didChange and the didOpen below cannot hit a None client
    if dictMem s.open_documents rd.path && false then
      match send_did_change true s rd.path rd.code with
      | .error e => .error e
      | .ok s2 =>
          .ok ({ server_status := s2.server_status
                 server_pid := s2.server_pid
                 server_capabilities := s2.server_capabilities }, s2)
    else
      let docs := dictSet s.open_documents rd.path 0
      match _text_document env docs rd.path rd.code with
      | .error e => .error e
      | .ok (td, docs2) =>
          let s2 := { s with open_documents := docs2
                             log := s.log ++ [.didOpen td] }
          .ok ({ server_status := s2.server_status
                 server_pid := s2.server_pid
                 server_capabilities := s2.server_capabilities }, s2)

/-- The severity mapping of workers.py line 365:
`ERROR if severity <= DiagnosticSeverity.Error else WARNING`. -/
def severity_level (sev : Int) : Nat :=
  if sev ≤ DiagnosticSeverityError then ERROR else WARNING

/-- The per-message tuple built by `poll_diagnostics`. -/
abbrev DiagTuple := String × Nat × Nat × (Nat × Nat)

/-- Shortcut instance keeping instance-search terms small. -/
instance : DecidableEq DiagTuple := inferInstance

def diag_tuple (m : Diag) : DiagTuple :=
  (m.message, severity_level m.severity, m.rangeStartLine,
   (m.rangeStartCharacter, m.rangeEndCharacter))

/-- `poll_diagnostics(request_data)`: `[None]` while the buffer is
still the pending empty dict; otherwise the filtered, severity-mapped
tuples. The heterogeneous Python list is modelled with `Option`:
`[none]` is the pending sentinel, plain entries are `some`. -/
def poll_diagnostics (rd : PollRequest) (s : WorkerState) :
    Except PyErr (List (Option DiagTuple) × WorkerState) :=
  match s.diagnostics with
  | none => .ok ([none], s)
  | some pub =>
      .ok (pub.diagnostics.filterMap (fun msg =>
        if rd.ignore_rules.any (fun ir => pyStartsWith msg.message ir) then none
        else some (some (diag_tuple msg))), s)

/-- `close_document(request_data)`: guard, then drop the path from the
registry; the protocol `didClose` is intentionally not sent. -/
def close_document (rd : CloseRequest) (s : WorkerState) :
    Except PyErr (Unit × WorkerState) :=
  if s.server_status ≠ SERVER_RUNNING then .ok ((), s)
  else if dictMem s.open_documents rd.path then
    .ok ((), { s with open_documents := dictDel s.open_documents rd.path })
  else .ok ((), s)

/-- `change_project_folders(request_data)`: guard, then only a log
line; no protocol message and no state change. -/
def change_project_folders (_rd : FoldersRequest) (s : WorkerState) :
    Except PyErr (Unit × WorkerState) :=
  if s.server_status ≠ SERVER_RUNNING then .ok ((), s)
  else .ok ((), s)

/-! ### Auxiliary predicates used by the theorems -/

/-- Well-formedness of one `signatureHelp` oracle outcome: when the
server answers with a non-empty signature list, the `activeSignature`
index must be a valid Python index into it (otherwise the worker's
`signatures.signatures[signatures.activeSignature]` raises
`IndexError`). -/
def sigWF : CmdOutcome (Option SignatureHelp) → Bool
  | .ok (some sh) => sh.signatures.isEmpty || pyIndexOk sh.signatures sh.activeSignature
  | _ => true

/-- The outgoing traffic a single `calltips` call can generate: one
request; or request, resync, request; or request, resync, request,
resync — the two requests always carry the same document item and
position, and a full-document change separates them. -/
def CalltipsTraffic (tail : List Msg) : Prop :=
  (∃ td l c, tail = [.sigRequest td l c]) ∨
  (∃ td l c tid ch,
    tail = [.sigRequest td l c, .didChange tid ch, .sigRequest td l c]) ∨
  (∃ td l c tid ch tid2 ch2,
    tail = [.sigRequest td l c, .didChange tid ch, .sigRequest td l c,
            .didChange tid2 ch2])

/-- Pointwise equivalence of completion oracle outcomes that differ
only in response shape: matched constructors, and payloads with equal
normalisations. -/
def complEquiv :
    CmdOutcome (Option CompletionResponse) →
    CmdOutcome (Option CompletionResponse) → Prop
  | .ok (some r1), .ok (some r2) => normalize_completions r1 = normalize_completions r2
  | .ok none, .ok none => True
  | .respError, .respError => True
  | .timeout, .timeout => True
  | .typeErr, .typeErr => True
  | _, _ => False

/-! ### Concrete fixtures used by counterexamples and witnesses -/

/-- An empty `signatureHelp` response. -/
def shEmpty : SignatureHelp :=
  { signatures := [], activeSignature := 0, activeParameter := 0 }

/-- A populated signature. -/
def sigInfoF : SignatureInfo :=
  { label := "f(x, y)", parameters := [{ label := "x" }, { label := "y" }],
    documentation := .dictValue "doc of f" }

/-- A populated `signatureHelp` response. -/
def shFull : SignatureHelp :=
  { signatures := [sigInfoF], activeSignature := 0, activeParameter := 1 }

/-- A concrete completion item. -/
def itemFoo : CompletionItemS :=
  { label := "foo()", insertText := "foo", kind := some KIND_FUNCTION,
    detail := some "def foo" }

/-- A concrete environment: spawn and initialize succeed, the server
answers an empty signature list on the first attempt and a populated
one on the second, completion and symbols answer on the first attempt. -/
def envC : Env :=
  { spawn_ok := true, pid := 7, init_ok := true, capabilities := "caps"
    fs := ["/proj/real.py"], tmp_path := "/tmp/t123", langid := "python"
    sig := fun n => if n = 0 then .ok (some shEmpty) else .ok (some shFull)
    compl := fun _ => .ok (some (.bare [itemFoo]))
    sym := .ok (some [{ name := "f", kind := "Function", line := 0,
                        containerName := none }]) }

/-- `envC` with a failing spawn. -/
def envBad : Env := { envC with spawn_ok := false }

/-- `envC` with a server whose signature answers are empty on both
attempts. -/
def envEmptySig : Env := { envC with sig := fun _ => .ok (some shEmpty) }

/-- A running worker state with two previously opened documents. -/
def stRun : WorkerState :=
  { initial_state with
      server_status := SERVER_RUNNING
      open_documents := [("", 0), ("a.py", 5), ("b.py", 3)]
      server_cmd := some "pylsp"
      server_pid := some 7
      server_capabilities := some "caps" }

/-- A diagnostic whose message starts with the ignore rule "E501". -/
def diagE501 : Diag :=
  { message := "E501 line too long", severity := 2, rangeStartLine := 1,
    rangeStartCharacter := 2, rangeEndCharacter := 79 }

/-- A diagnostic whose message does not start with "E501". -/
def diagE302 : Diag :=
  { message := "E302 expected 2 blank lines", severity := 1,
    rangeStartLine := 4, rangeStartCharacter := 0, rangeEndCharacter := 3 }

/-- A concrete `publishDiagnostics` payload with both messages. -/
def pubEx : PublishParams :=
  { uri := "file:///tmp/t123", diagnostics := [diagE501, diagE302] }

/-- A concrete calltip request on the registered path "a.py". -/
def rdCall : CalltipRequest :=
  { code := "x", line := 0, column := 3, path := "a.py" }

/-- A concrete calltip request on a path absent from the registry. -/
def rdGhost : CalltipRequest :=
  { code := "x", line := 0, column := 0, path := "ghost.py" }

/-- A concrete completion request on the registered path "a.py". -/
def rdCompl : CompletionRequest :=
  { code := "x", line := 0, column := 3, path := "a.py", prfx := "f",
    triggered_by_symbol := true }

/-- A concrete symbols request on the registered path "b.py". -/
def rdSym : SymbolsRequest :=
  { code := "x", path := "b.py", kind := ["Function"] }

/-- A completion oracle answering the same items as `envC` but wrapped
in an object with an `items` attribute instead of a bare list. -/
def fWrapped : Nat → CmdOutcome (Option CompletionResponse) :=
  fun _ => .ok (some (.withItems [itemFoo]))

/-- An environment whose `signatureHelp` requests time out and whose
respawns fail: the timeout-triggered restart leaves the client handle
`None`, so the subsequent `didChange` raises `AttributeError`. -/
def envTimeout : Env :=
  { envC with sig := fun _ => .timeout, spawn_ok := false }

instance {ε α : Type} [DecidableEq ε] [DecidableEq α] :
    DecidableEq (Except ε α) := fun a b =>
  match a, b with
  | .ok x, .ok y =>
      if h : x = y then .isTrue (by rw [h]) else
        .isFalse (by intro hc; cases hc; exact h rfl)
  | .error x, .error y =>
      if h : x = y then .isTrue (by rw [h]) else
        .isFalse (by intro hc; cases hc; exact h rfl)
  | .ok x, .error y => .isFalse (by intro hc; cases hc)
  | .error x, .ok y => .isFalse (by intro hc; cases hc)

/-! ### Helper lemmas about the dict operations -/

theorem dictFind_dictSet_self (d : Docs) (k : String) (v : Nat) :
    dictFind (dictSet d k v) k = some v := by
  induction d with
  | nil => simp [dictSet, dictFind]
  | cons kv rest ih =>
      obtain ⟨k2, v2⟩ := kv
      by_cases h : k2 = k
      · simp [dictSet, dictFind, h]
      · simp [dictSet, dictFind, h, ih]

theorem dictIncr_of_find (d : Docs) (k : String) (v : Nat)
    (hv : dictFind d k = some v) :
    dictIncr d k = .ok (v + 1, dictSet d k (v + 1)) := by
  unfold dictIncr
  rw [hv]

theorem dictMem_iff_find (d : Docs) (k : String) :
    dictMem d k = true ↔ ∃ v, dictFind d k = some v := by
  unfold dictMem
  cases h : dictFind d k <;> simp

/-! ### Helper lemmas about the lifecycle functions -/

theorem start_language_server_frame (env : Env) (cmd : String)
    (folders : List String) (s : WorkerState) :
    (start_language_server env cmd folders s).open_documents = s.open_documents ∧
    (start_language_server env cmd folders s).log = s.log ∧
    (start_language_server env cmd folders s).diagnostics = s.diagnostics := by
  unfold start_language_server
  cases hs : env.spawn_ok <;> cases hi : env.init_ok <;> simp

theorem restart_frame (env : Env) (s : WorkerState) :
    (restart_language_server env s).open_documents = s.open_documents ∧
    (restart_language_server env s).log = s.log ∧
    (restart_language_server env s).diagnostics = s.diagnostics := by
  unfold restart_language_server
  exact start_language_server_frame env _ _ _

/-! ### Helper lemmas about the document-sync builders -/

theorem _text_document_of_find (env : Env) (d : Docs) (p c : String) (v : Nat)
    (hv : dictFind d p = some v) :
    _text_document env d p c =
      .ok ({ uri := _path_to_uri env.fs env.tmp_path p
             languageId := env.langid
             version := v + 1
             text := ensureNewline c }, dictSet d p (v + 1)) := by
  unfold _text_document
  rw [dictIncr_of_find d p v hv]

theorem send_did_change_of_find (s : WorkerState) (p c : String) (v : Nat)
    (hv : dictFind s.open_documents p = some v) :
    send_did_change true s p c =
      .ok { s with
              open_documents := dictSet s.open_documents p (v + 1)
              log := s.log ++
                [.didChange { uri := "file://" ++ p, version := v + 1 }
                   (_everything_changed c)] } := by
  unfold send_did_change _text_identifier
  rw [if_neg (by simp), dictIncr_of_find _ p v hv]

theorem send_did_change_dead (s : WorkerState) (p c : String) :
    send_did_change false s p c = .error .attrError := rfl

/-! ### Helper lemmas about `pyIndex` and `finish_calltips` -/

theorem pyIndex_ok_of_pyIndexOk {α : Type} (l : List α) (i : Int)
    (h : pyIndexOk l i = true) : ∃ a, pyIndex l i = .ok a := by
  unfold pyIndexOk at h
  unfold pyIndex
  simp only [Bool.and_eq_true, decide_eq_true_eq] at h
  rw [dif_pos h]
  exact ⟨_, rfl⟩

theorem pyIndex_nil {α : Type} (i : Int) :
    pyIndex ([] : List α) i = .error .indexError := by
  simp only [pyIndex, List.length_nil, Nat.cast_zero]
  rw [dif_neg]
  by_cases hi : i < 0 <;> simp [hi]

theorem pyIndex_ok_not_nil {α : Type} (l : List α) (i : Int) (a : α)
    (h : pyIndex l i = .ok a) : l.isEmpty = false := by
  cases l with
  | nil =>
      rw [pyIndex_nil] at h
      exact absurd h (by simp)
  | cons x xs => rfl

theorem finish_calltips_of_index (sh : SignatureHelp) (col : Nat)
    (s : WorkerState) (sig : SignatureInfo)
    (h : pyIndex sh.signatures sh.activeSignature = .ok sig) :
    finish_calltips sh col s =
      .ok (some (sig.label, sig.parameters.map (fun p => p.label),
                 flattenDoc sig.documentation, sh.activeParameter, col), s) := by
  unfold finish_calltips
  rw [h]

theorem finish_calltips_state (sh : SignatureHelp) (col : Nat)
    (s : WorkerState) (r : CalltipResult) (s2 : WorkerState)
    (h : finish_calltips sh col s = .ok (r, s2)) : s2 = s := by
  unfold finish_calltips at h
  cases hp : pyIndex sh.signatures sh.activeSignature <;> rw [hp] at h
  · exact absurd h (by simp)
  · simp only [Except.ok.injEq, Prod.mk.injEq] at h
    exact h.2.symm

/-! ### Helper lemmas about one request attempt -/

theorem keepSig_eq_some (r : Option (Option SignatureHelp)) (sh : SignatureHelp)
    (h : keepSig r = some sh) :
    r = some (some sh) ∧ sh.signatures.isEmpty = false := by
  cases r with
  | none => exact absurd h (by simp [keepSig])
  | some a =>
      cases a with
      | none => exact absurd h (by simp [keepSig])
      | some sh2 =>
          unfold keepSig at h
          dsimp only at h
          by_cases he : sh2.signatures.isEmpty
          · rw [if_pos he] at h
            exact absurd h (by simp)
          · rw [if_neg he] at h
            cases h
            exact ⟨rfl, by simpa using he⟩

theorem sig_attempt_spec (env : Env) (o : CmdOutcome (Option SignatureHelp))
    (sA : WorkerState) :
    ∃ r sB, catchTypeErr (_run_command env o sA) sA = .ok (r, sB) ∧
      (sB = sA ∨ sB = restart_language_server env sA) ∧
      (∀ sh, r = some (some sh) → o = .ok (some sh)) := by
  cases o with
  | ok a =>
      exact ⟨some a, sA, rfl, Or.inl rfl, by
        intro sh h
        cases h
        rfl⟩
  | respError => exact ⟨some none, sA, rfl, Or.inl rfl, by intro sh h; cases h⟩
  | timeout =>
      exact ⟨some none, restart_language_server env sA, rfl, Or.inr rfl, by
        intro sh h; cases h⟩
  | typeErr => exact ⟨none, sA, rfl, Or.inl rfl, by intro sh h; cases h⟩

theorem run_command_spec {β : Type} (env : Env) (o : CmdOutcome (Option β))
    (sA : WorkerState) (hne : o ≠ .typeErr) :
    ∃ r sB, _run_command env o sA = .ok (r, sB) ∧
      (sB = sA ∨ sB = restart_language_server env sA) := by
  cases o with
  | ok a => exact ⟨a, sA, rfl, Or.inl rfl⟩
  | respError => exact ⟨none, sA, rfl, Or.inl rfl⟩
  | timeout => exact ⟨none, restart_language_server env sA, rfl, Or.inr rfl⟩
  | typeErr => exact absurd rfl hne

/-! ### Behaviour of the calltips pipeline -/

theorem calltips_giveup_spec (rd : CalltipRequest) (s3 : WorkerState) (w : Nat)
    (hv : dictFind s3.open_documents rd.path = some w) :
    ∃ s4, calltips_giveup rd true s3 = .ok (none, s4) ∧
      dictFind s4.open_documents rd.path = some (w + 1) ∧
      ∃ tid ch, s4.log = s3.log ++ [.didChange tid ch] := by
  unfold calltips_giveup
  rw [send_did_change_of_find s3 rd.path rd.code w hv]
  exact ⟨_, rfl, dictFind_dictSet_self _ _ _, _, _, rfl⟩

/-- Conditional form of `calltips_giveup_spec` for an arbitrary client
aliveness: whenever the give-up step completes without an exception,
the version counter was bumped and one `didChange` logged. -/
theorem calltips_giveup_cases (rd : CalltipRequest) (alive : Bool)
    (s3 : WorkerState) (w : Nat)
    (hv : dictFind s3.open_documents rd.path = some w) :
    ∀ r s2, calltips_giveup rd alive s3 = .ok (r, s2) →
      dictFind s2.open_documents rd.path = some (w + 1) ∧
      ∃ tid ch, s2.log = s3.log ++ [Msg.didChange tid ch] := by
  cases alive with
  | false =>
      intro r s2 hc
      unfold calltips_giveup at hc
      rw [send_did_change_dead] at hc
      cases hc
  | true =>
      intro r s2 hc
      obtain ⟨s4, hq, hfind, tid, ch, hlog⟩ := calltips_giveup_spec rd s3 w hv
      rw [hc] at hq
      simp only [Except.ok.injEq, Prod.mk.injEq] at hq
      obtain ⟨-, rfl⟩ := hq
      exact ⟨hfind, tid, ch, hlog⟩

theorem send_did_change_shape (s1 : WorkerState) (p c : String) (w : Nat)
    (hv : dictFind s1.open_documents p = some w) :
    ∃ sC, send_did_change true s1 p c = .ok sC ∧
      sC.open_documents = dictSet s1.open_documents p (w + 1) ∧
      (∃ tid ch, sC.log = s1.log ++ [Msg.didChange tid ch]) := by
  rw [send_did_change_of_find s1 p c w hv]
  exact ⟨_, rfl, rfl, _, _, rfl⟩

theorem calltips_second_spec (env : Env) (rd : CalltipRequest)
    (td : TextDocumentItem) (s1 : WorkerState) (w : Nat)
    (hv : dictFind s1.open_documents rd.path = some w)
    (hwf : sigWF (env.sig 1) = true) (hspawn : env.spawn_ok = true) :
    ∃ r s2, calltips_second env rd td true s1 = .ok (r, s2) ∧
      (∃ v2, dictFind s2.open_documents rd.path = some v2 ∧ w < v2) ∧
      ((∃ tid ch, s2.log = s1.log ++
          [.didChange tid ch, .sigRequest td rd.line rd.column]) ∨
       (∃ tid ch tid2 ch2, s2.log = s1.log ++
          [.didChange tid ch, .sigRequest td rd.line rd.column,
           .didChange tid2 ch2])) := by
  obtain ⟨sC, hsend, hdocs, tid, ch, hlog⟩ :=
    send_did_change_shape s1 rd.path rd.code w hv
  unfold calltips_second
  rw [hsend]
  dsimp only
  set sD : WorkerState :=
    { sC with log := sC.log ++ [Msg.sigRequest td rd.line rd.column] } with hsD
  have hDdocs : sD.open_documents = dictSet s1.open_documents rd.path (w + 1) := by
    rw [hsD]
    exact hdocs
  have hDlog : sD.log = s1.log ++ [Msg.didChange tid ch,
      Msg.sigRequest td rd.line rd.column] := by
    rw [hsD]
    simp [hlog]
  have hDfind : dictFind sD.open_documents rd.path = some (w + 1) := by
    rw [hDdocs]
    exact dictFind_dictSet_self _ _ _
  cases h1 : env.sig 1 with
  | ok a =>
      cases a with
      | some sh =>
          by_cases he : sh.signatures.isEmpty
          · -- empty second response: give up
            simp only [_run_command, catchTypeErr, keepSig, client_after, he,
              if_true]
            obtain ⟨s4, hq, hfind, tid2, ch2, hlog2⟩ :=
              calltips_giveup_spec rd sD (w + 1) hDfind
            refine ⟨none, s4, hq, ⟨w + 2, hfind, by omega⟩,
              Or.inr ⟨tid, ch, tid2, ch2, ?_⟩⟩
            rw [hlog2, hDlog]
            simp
          · -- non-empty second response: normalise it
            rw [h1] at hwf
            simp only [sigWF, he, Bool.false_or] at hwf
            obtain ⟨sig, hsig⟩ := pyIndex_ok_of_pyIndexOk _ _ hwf
            simp only [_run_command, catchTypeErr, keepSig, he,
              Bool.false_eq_true, if_false]
            rw [finish_calltips_of_index sh rd.column sD sig hsig]
            exact ⟨_, sD, rfl, ⟨w + 1, hDfind, by omega⟩,
              Or.inl ⟨tid, ch, hDlog⟩⟩
      | none =>
          simp only [_run_command, catchTypeErr, keepSig, client_after]
          obtain ⟨s4, hq, hfind, tid2, ch2, hlog2⟩ :=
            calltips_giveup_spec rd sD (w + 1) hDfind
          refine ⟨none, s4, hq, ⟨w + 2, hfind, by omega⟩,
            Or.inr ⟨tid, ch, tid2, ch2, ?_⟩⟩
          rw [hlog2, hDlog]
          simp
  | respError =>
      simp only [_run_command, catchTypeErr, keepSig, client_after]
      obtain ⟨s4, hq, hfind, tid2, ch2, hlog2⟩ :=
        calltips_giveup_spec rd sD (w + 1) hDfind
      refine ⟨none, s4, hq, ⟨w + 2, hfind, by omega⟩,
        Or.inr ⟨tid, ch, tid2, ch2, ?_⟩⟩
      rw [hlog2, hDlog]
      simp
  | timeout =>
      simp only [_run_command, catchTypeErr, keepSig, client_after, hspawn]
      obtain ⟨s4, hq, hfind, tid2, ch2, hlog2⟩ :=
        calltips_giveup_spec rd (restart_language_server env sD) (w + 1) (by
          rw [(restart_frame env sD).1]
          exact hDfind)
      refine ⟨none, s4, hq, ⟨w + 2, hfind, by omega⟩,
        Or.inr ⟨tid, ch, tid2, ch2, ?_⟩⟩
      rw [hlog2, (restart_frame env sD).2.1, hDlog]
      simp
  | typeErr =>
      simp only [_run_command, catchTypeErr, keepSig, client_after]
      obtain ⟨s4, hq, hfind, tid2, ch2, hlog2⟩ :=
        calltips_giveup_spec rd sD (w + 1) hDfind
      refine ⟨none, s4, hq, ⟨w + 2, hfind, by omega⟩,
        Or.inr ⟨tid, ch, tid2, ch2, ?_⟩⟩
      rw [hlog2, hDlog]
      simp

/-- Conditional form of `calltips_second_spec`, for an arbitrary client
aliveness and without any well-formedness assumption on the server's
answers: whenever the second attempt completes without an exception,
the version counter strictly increased and the logged traffic has one
of the two retry shapes. -/
theorem calltips_second_cases (env : Env) (rd : CalltipRequest)
    (td : TextDocumentItem) (alive : Bool) (s1 : WorkerState) (w : Nat)
    (hv : dictFind s1.open_documents rd.path = some w) :
    ∀ r s2, calltips_second env rd td alive s1 = .ok (r, s2) →
      (∃ v2, dictFind s2.open_documents rd.path = some v2 ∧ w < v2) ∧
      ((∃ tid ch, s2.log = s1.log ++
          [.didChange tid ch, .sigRequest td rd.line rd.column]) ∨
       (∃ tid ch tid2 ch2, s2.log = s1.log ++
          [.didChange tid ch, .sigRequest td rd.line rd.column,
           .didChange tid2 ch2])) := by
  cases alive with
  | false =>
      intro r s2 hc
      unfold calltips_second at hc
      rw [send_did_change_dead] at hc
      cases hc
  | true =>
      intro r s2 hc
      obtain ⟨sC, hsend, hdocs, tid, ch, hlog⟩ :=
        send_did_change_shape s1 rd.path rd.code w hv
      unfold calltips_second at hc
      rw [hsend] at hc
      dsimp only at hc
      set sD : WorkerState :=
        { sC with log := sC.log ++ [Msg.sigRequest td rd.line rd.column] }
        with hsD
      have hDlog : sD.log = s1.log ++ [Msg.didChange tid ch,
          Msg.sigRequest td rd.line rd.column] := by
        rw [hsD]
        simp [hlog]
      have hDfind : dictFind sD.open_documents rd.path = some (w + 1) := by
        rw [show sD.open_documents = dictSet s1.open_documents rd.path (w + 1)
          from by rw [hsD]; exact hdocs]
        exact dictFind_dictSet_self _ _ _
      cases h1 : env.sig 1 with
      | ok a =>
          rw [h1] at hc
          cases a with
          | some sh =>
              by_cases he : sh.signatures.isEmpty
              · simp only [_run_command, catchTypeErr, keepSig, client_after,
                  he, if_true] at hc
                obtain ⟨hfind, tid2, ch2, hlog2⟩ :=
                  calltips_giveup_cases rd true sD (w + 1) hDfind r s2 hc
                refine ⟨⟨w + 2, hfind, by omega⟩,
                  Or.inr ⟨tid, ch, tid2, ch2, ?_⟩⟩
                rw [hlog2, hDlog]
                simp
              · simp only [_run_command, catchTypeErr, keepSig, client_after,
                  he, Bool.false_eq_true, if_false] at hc
                have hstate := finish_calltips_state sh rd.column sD r s2 hc
                subst hstate
                exact ⟨⟨w + 1, hDfind, by omega⟩, Or.inl ⟨tid, ch, hDlog⟩⟩
          | none =>
              simp only [_run_command, catchTypeErr, keepSig, client_after]
                at hc
              obtain ⟨hfind, tid2, ch2, hlog2⟩ :=
                calltips_giveup_cases rd true sD (w + 1) hDfind r s2 hc
              refine ⟨⟨w + 2, hfind, by omega⟩,
                Or.inr ⟨tid, ch, tid2, ch2, ?_⟩⟩
              rw [hlog2, hDlog]
              simp
      | respError =>
          rw [h1] at hc
          simp only [_run_command, catchTypeErr, keepSig, client_after] at hc
          obtain ⟨hfind, tid2, ch2, hlog2⟩ :=
            calltips_giveup_cases rd true sD (w + 1) hDfind r s2 hc
          refine ⟨⟨w + 2, hfind, by omega⟩,
            Or.inr ⟨tid, ch, tid2, ch2, ?_⟩⟩
          rw [hlog2, hDlog]
          simp
      | timeout =>
          rw [h1] at hc
          simp only [_run_command, catchTypeErr, keepSig, client_after] at hc
          obtain ⟨hfind, tid2, ch2, hlog2⟩ :=
            calltips_giveup_cases rd (true && env.spawn_ok)
              (restart_language_server env sD) (w + 1) (by
                rw [(restart_frame env sD).1]
                exact hDfind) r s2 hc
          refine ⟨⟨w + 2, hfind, by omega⟩,
            Or.inr ⟨tid, ch, tid2, ch2, ?_⟩⟩
          rw [hlog2, (restart_frame env sD).2.1, hDlog]
          simp
      | typeErr =>
          rw [h1] at hc
          simp only [_run_command, catchTypeErr, keepSig, client_after] at hc
          obtain ⟨hfind, tid2, ch2, hlog2⟩ :=
            calltips_giveup_cases rd true sD (w + 1) hDfind r s2 hc
          refine ⟨⟨w + 2, hfind, by omega⟩,
            Or.inr ⟨tid, ch, tid2, ch2, ?_⟩⟩
          rw [hlog2, hDlog]
          simp

theorem _text_document_shape (env : Env) (d : Docs) (p c : String) (v : Nat)
    (hv : dictFind d p = some v) :
    ∃ td docs2, _text_document env d p c = .ok (td, docs2) ∧
      docs2 = dictSet d p (v + 1) := by
  rw [_text_document_of_find env d p c v hv]
  exact ⟨_, _, rfl, rfl⟩

theorem calltips_spec (env : Env) (rd : CalltipRequest) (s : WorkerState)
    (v : Nat) (hrun : s.server_status = SERVER_RUNNING)
    (hv : dictFind s.open_documents rd.path = some v)
    (hwf0 : sigWF (env.sig 0) = true) (hwf1 : sigWF (env.sig 1) = true)
    (hspawn : env.spawn_ok = true) :
    ∃ r s2, calltips env rd s = .ok (r, s2) ∧
      (∃ v2, dictFind s2.open_documents rd.path = some v2 ∧ v < v2) ∧
      (∃ tail, s2.log = s.log ++ tail ∧ CalltipsTraffic tail) := by
  obtain ⟨td, docs2, htd, hdocs2⟩ :=
    _text_document_shape env s.open_documents rd.path rd.code v hv
  have hfindA : dictFind docs2 rd.path = some (v + 1) := by
    rw [hdocs2]
    exact dictFind_dictSet_self _ _ _
  have hsecond : ∀ sB : WorkerState,
      sB.open_documents = docs2 →
      sB.log = s.log ++ [Msg.sigRequest td rd.line rd.column] →
      ∃ r s2, calltips_second env rd td true sB = .ok (r, s2) ∧
        (∃ v2, dictFind s2.open_documents rd.path = some v2 ∧ v < v2) ∧
        (∃ tail, s2.log = s.log ++ tail ∧ CalltipsTraffic tail) := by
    intro sB hBdocs hBlog
    obtain ⟨r, s2, heq, ⟨v2, hfind, hlt⟩, hdisj⟩ :=
      calltips_second_spec env rd td sB (v + 1) (by rw [hBdocs]; exact hfindA)
        hwf1 hspawn
    refine ⟨r, s2, heq, ⟨v2, hfind, by omega⟩, ?_⟩
    rcases hdisj with ⟨tid, ch, hl⟩ | ⟨tid, ch, tid2, ch2, hl⟩
    · refine ⟨[Msg.sigRequest td rd.line rd.column, Msg.didChange tid ch,
        Msg.sigRequest td rd.line rd.column], ?_,
        Or.inr (Or.inl ⟨td, rd.line, rd.column, tid, ch, rfl⟩)⟩
      rw [hl, hBlog]
      simp
    · refine ⟨[Msg.sigRequest td rd.line rd.column, Msg.didChange tid ch,
        Msg.sigRequest td rd.line rd.column, Msg.didChange tid2 ch2], ?_,
        Or.inr (Or.inr ⟨td, rd.line, rd.column, tid, ch, tid2, ch2, rfl⟩)⟩
      rw [hl, hBlog]
      simp
  unfold calltips
  rw [if_neg (by simp [hrun]), htd]
  dsimp only
  cases h0 : env.sig 0 with
  | ok a =>
      cases a with
      | some sh =>
          by_cases he : sh.signatures.isEmpty
          · simp only [_run_command, catchTypeErr, keepSig, client_after, he,
              if_true]
            exact hsecond _ rfl rfl
          · rw [h0] at hwf0
            simp only [sigWF, he, Bool.false_or] at hwf0
            obtain ⟨sig, hsig⟩ := pyIndex_ok_of_pyIndexOk _ _ hwf0
            simp only [_run_command, catchTypeErr, keepSig, he,
              Bool.false_eq_true, if_false]
            rw [finish_calltips_of_index sh rd.column _ sig hsig]
            exact ⟨_, _, rfl, ⟨v + 1, hfindA, by omega⟩,
              ⟨[Msg.sigRequest td rd.line rd.column], rfl,
               Or.inl ⟨td, rd.line, rd.column, rfl⟩⟩⟩
      | none =>
          simp only [_run_command, catchTypeErr, keepSig, client_after]
          exact hsecond _ rfl rfl
  | respError =>
      simp only [_run_command, catchTypeErr, keepSig, client_after]
      exact hsecond _ rfl rfl
  | timeout =>
      simp only [_run_command, catchTypeErr, keepSig, client_after, hspawn]
      refine hsecond _ ?_ ?_
      · rw [(restart_frame env _).1]
      · rw [(restart_frame env _).2.1]
  | typeErr =>
      simp only [_run_command, catchTypeErr, keepSig, client_after]
      exact hsecond _ rfl rfl

/-- Conditional form of `calltips_spec`, for arbitrary environments:
whenever `calltips` completes without an exception on a registered
path, the path's version counter strictly increased and the logged
traffic has one of the three `CalltipsTraffic` shapes. -/
theorem calltips_cases (env : Env) (rd : CalltipRequest) (s : WorkerState)
    (v : Nat) (hrun : s.server_status = SERVER_RUNNING)
    (hv : dictFind s.open_documents rd.path = some v) :
    ∀ r s2, calltips env rd s = .ok (r, s2) →
      (∃ v2, dictFind s2.open_documents rd.path = some v2 ∧ v < v2) ∧
      (∃ tail, s2.log = s.log ++ tail ∧ CalltipsTraffic tail) := by
  intro r s2 hc
  obtain ⟨td, docs2, htd, hdocs2⟩ :=
    _text_document_shape env s.open_documents rd.path rd.code v hv
  have hfindA : dictFind docs2 rd.path = some (v + 1) := by
    rw [hdocs2]
    exact dictFind_dictSet_self _ _ _
  have hsecond : ∀ (alive : Bool) (sB : WorkerState),
      sB.open_documents = docs2 →
      sB.log = s.log ++ [Msg.sigRequest td rd.line rd.column] →
      calltips_second env rd td alive sB = .ok (r, s2) →
      (∃ v2, dictFind s2.open_documents rd.path = some v2 ∧ v < v2) ∧
      (∃ tail, s2.log = s.log ++ tail ∧ CalltipsTraffic tail) := by
    intro alive sB hBdocs hBlog hcc
    obtain ⟨⟨v2, hfind, hlt⟩, hdisj⟩ :=
      calltips_second_cases env rd td alive sB (v + 1)
        (by rw [hBdocs]; exact hfindA) r s2 hcc
    refine ⟨⟨v2, hfind, by omega⟩, ?_⟩
    rcases hdisj with ⟨tid, ch, hl⟩ | ⟨tid, ch, tid2, ch2, hl⟩
    · refine ⟨[Msg.sigRequest td rd.line rd.column, Msg.didChange tid ch,
        Msg.sigRequest td rd.line rd.column], ?_,
        Or.inr (Or.inl ⟨td, rd.line, rd.column, tid, ch, rfl⟩)⟩
      rw [hl, hBlog]
      simp
    · refine ⟨[Msg.sigRequest td rd.line rd.column, Msg.didChange tid ch,
        Msg.sigRequest td rd.line rd.column, Msg.didChange tid2 ch2], ?_,
        Or.inr (Or.inr ⟨td, rd.line, rd.column, tid, ch, tid2, ch2, rfl⟩)⟩
      rw [hl, hBlog]
      simp
  unfold calltips at hc
  rw [if_neg (by simp [hrun]), htd] at hc
  dsimp only at hc
  cases h0 : env.sig 0 with
  | ok a =>
      rw [h0] at hc
      cases a with
      | some sh =>
          by_cases he : sh.signatures.isEmpty
          · simp only [_run_command, catchTypeErr, keepSig, client_after, he,
              if_true] at hc
            exact hsecond true _ rfl rfl hc
          · simp only [_run_command, catchTypeErr, keepSig, client_after, he,
              Bool.false_eq_true, if_false] at hc
            have hstate := finish_calltips_state sh rd.column _ r s2 hc
            subst hstate
            exact ⟨⟨v + 1, hfindA, by omega⟩,
              ⟨[Msg.sigRequest td rd.line rd.column], rfl,
               Or.inl ⟨td, rd.line, rd.column, rfl⟩⟩⟩
      | none =>
          simp only [_run_command, catchTypeErr, keepSig, client_after] at hc
          exact hsecond true _ rfl rfl hc
  | respError =>
      rw [h0] at hc
      simp only [_run_command, catchTypeErr, keepSig, client_after] at hc
      exact hsecond true _ rfl rfl hc
  | timeout =>
      rw [h0] at hc
      simp only [_run_command, catchTypeErr, keepSig, client_after] at hc
      refine hsecond (true && env.spawn_ok) _ ?_ ?_ hc
      · rw [(restart_frame env _).1]
      · rw [(restart_frame env _).2.1]
  | typeErr =>
      rw [h0] at hc
      simp only [_run_command, catchTypeErr, keepSig, client_after] at hc
      exact hsecond true _ rfl rfl hc

/-- The second-attempt pipeline under the concrete scenario "the retry
answers a usable signature list": the result is that signature,
normalised. -/
theorem calltips_second_scenario (env : Env) (rd : CalltipRequest)
    (td : TextDocumentItem) (sB : WorkerState) (w : Nat) (sh1 : SignatureHelp)
    (sig : SignatureInfo)
    (hv : dictFind sB.open_documents rd.path = some w)
    (h1 : env.sig 1 = .ok (some sh1))
    (hsig : pyIndex sh1.signatures sh1.activeSignature = .ok sig) :
    (calltips_second env rd td true sB).map Prod.fst =
      .ok (some (sig.label, sig.parameters.map (fun p => p.label),
                 flattenDoc sig.documentation, sh1.activeParameter, rd.column)) := by
  obtain ⟨sC, hsend, hdocs, tid, ch, hlog⟩ :=
    send_did_change_shape sB rd.path rd.code w hv
  unfold calltips_second
  rw [hsend]
  dsimp only
  rw [h1]
  have he : sh1.signatures.isEmpty = false := pyIndex_ok_not_nil _ _ _ hsig
  simp only [_run_command, catchTypeErr, keepSig, client_after, he,
    Bool.false_eq_true, if_false]
  rw [finish_calltips_of_index sh1 rd.column _ sig hsig]
  rfl

/-- The second-attempt pipeline under the concrete scenario "the retry
answers an empty signature list again": the result is the empty tuple. -/
theorem calltips_second_empty (env : Env) (rd : CalltipRequest)
    (td : TextDocumentItem) (sB : WorkerState) (w : Nat) (sh1 : SignatureHelp)
    (hv : dictFind sB.open_documents rd.path = some w)
    (h1 : env.sig 1 = .ok (some sh1)) (h11 : sh1.signatures = []) :
    (calltips_second env rd td true sB).map Prod.fst = .ok none := by
  obtain ⟨sC, hsend, hdocs, tid, ch, hlog⟩ :=
    send_did_change_shape sB rd.path rd.code w hv
  unfold calltips_second
  rw [hsend]
  dsimp only
  rw [h1]
  have he : sh1.signatures.isEmpty = true := by simp [h11]
  simp only [_run_command, catchTypeErr, keepSig, client_after, he, if_true]
  set sD : WorkerState :=
    { sC with log := sC.log ++ [Msg.sigRequest td rd.line rd.column] } with hsD
  have hDdocs : sD.open_documents = dictSet sB.open_documents rd.path (w + 1) := by
    rw [hsD]
    exact hdocs
  have hDfind : dictFind sD.open_documents rd.path = some (w + 1) := by
    rw [hDdocs]
    exact dictFind_dictSet_self _ _ _
  obtain ⟨s4, hq, _, _, _, _⟩ := calltips_giveup_spec rd sD (w + 1) hDfind
  rw [hq]
  rfl

/-- The whole calltips pipeline under the scenario of the spec: empty
signatures on attempt 1, usable signatures on attempt 2. -/
theorem calltips_scenario (env : Env) (rd : CalltipRequest) (s : WorkerState)
    (v : Nat) (sh0 sh1 : SignatureHelp) (sig : SignatureInfo)
    (hrun : s.server_status = SERVER_RUNNING)
    (hv : dictFind s.open_documents rd.path = some v)
    (h0 : env.sig 0 = .ok (some sh0)) (h00 : sh0.signatures = [])
    (h1 : env.sig 1 = .ok (some sh1))
    (hsig : pyIndex sh1.signatures sh1.activeSignature = .ok sig) :
    (calltips env rd s).map Prod.fst =
      .ok (some (sig.label, sig.parameters.map (fun p => p.label),
                 flattenDoc sig.documentation, sh1.activeParameter, rd.column)) := by
  obtain ⟨td, docs2, htd, hdocs2⟩ :=
    _text_document_shape env s.open_documents rd.path rd.code v hv
  have hfindA : dictFind docs2 rd.path = some (v + 1) := by
    rw [hdocs2]
    exact dictFind_dictSet_self _ _ _
  unfold calltips
  rw [if_neg (by simp [hrun]), htd]
  dsimp only
  rw [h0]
  have he0 : sh0.signatures.isEmpty = true := by simp [h00]
  simp only [_run_command, catchTypeErr, keepSig, client_after, he0, if_true]
  exact calltips_second_scenario env rd td _ (v + 1) sh1 sig hfindA h1 hsig

/-- The whole calltips pipeline when both attempts answer an empty
signature list: the empty tuple comes back. -/
theorem calltips_empty_scenario (env : Env) (rd : CalltipRequest)
    (s : WorkerState) (v : Nat) (sh0 sh1 : SignatureHelp)
    (hrun : s.server_status = SERVER_RUNNING)
    (hv : dictFind s.open_documents rd.path = some v)
    (h0 : env.sig 0 = .ok (some sh0)) (h00 : sh0.signatures = [])
    (h1 : env.sig 1 = .ok (some sh1)) (h11 : sh1.signatures = []) :
    (calltips env rd s).map Prod.fst = .ok none := by
  obtain ⟨td, docs2, htd, hdocs2⟩ :=
    _text_document_shape env s.open_documents rd.path rd.code v hv
  have hfindA : dictFind docs2 rd.path = some (v + 1) := by
    rw [hdocs2]
    exact dictFind_dictSet_self _ _ _
  unfold calltips
  rw [if_neg (by simp [hrun]), htd]
  dsimp only
  rw [h0]
  have he0 : sh0.signatures.isEmpty = true := by simp [h00]
  simp only [_run_command, catchTypeErr, keepSig, client_after, he0, if_true]
  exact calltips_second_empty env rd td _ (v + 1) sh1 hfindA h1 h11

/-! ### Behaviour of the completion pipeline -/

theorem complete_giveup_spec (rd : CompletionRequest) (s3 : WorkerState)
    (w : Nat) (hv : dictFind s3.open_documents rd.path = some w) :
    ∃ s4, complete_giveup rd true s3 = .ok (.empty, s4) ∧
      dictFind s4.open_documents rd.path = some (w + 1) := by
  unfold complete_giveup
  rw [send_did_change_of_find s3 rd.path rd.code w hv]
  exact ⟨_, rfl, dictFind_dictSet_self _ _ _⟩

/-- Conditional form of `complete_giveup_spec` for an arbitrary client
aliveness. -/
theorem complete_giveup_cases (rd : CompletionRequest) (alive : Bool)
    (s3 : WorkerState) (w : Nat)
    (hv : dictFind s3.open_documents rd.path = some w) :
    ∀ r s2, complete_giveup rd alive s3 = .ok (r, s2) →
      dictFind s2.open_documents rd.path = some (w + 1) := by
  cases alive with
  | false =>
      intro r s2 hc
      unfold complete_giveup at hc
      rw [send_did_change_dead] at hc
      cases hc
  | true =>
      intro r s2 hc
      obtain ⟨s4, hq, hfind⟩ := complete_giveup_spec rd s3 w hv
      rw [hc] at hq
      simp only [Except.ok.injEq, Prod.mk.injEq] at hq
      obtain ⟨-, rfl⟩ := hq
      exact hfind

theorem complete_second_spec (env : Env) (rd : CompletionRequest)
    (td : TextDocumentItem) (column : Nat) (s1 : WorkerState) (w : Nat)
    (hv : dictFind s1.open_documents rd.path = some w)
    (h1 : env.compl 1 ≠ .typeErr) (hspawn : env.spawn_ok = true) :
    ∃ r s2, complete_second env rd td column true s1 = .ok (r, s2) ∧
      ∃ v2, dictFind s2.open_documents rd.path = some v2 ∧ w < v2 := by
  obtain ⟨sC, hsend, hdocs, tid, ch, hlog⟩ :=
    send_did_change_shape s1 rd.path rd.code w hv
  unfold complete_second
  rw [hsend]
  dsimp only
  set sD : WorkerState :=
    { sC with log := sC.log ++
        [Msg.complRequest td rd.line column rd.triggered_by_symbol] } with hsD
  have hDdocs : sD.open_documents = dictSet s1.open_documents rd.path (w + 1) := by
    rw [hsD]
    exact hdocs
  have hDfind : dictFind sD.open_documents rd.path = some (w + 1) := by
    rw [hDdocs]
    exact dictFind_dictSet_self _ _ _
  cases hc1 : env.compl 1 with
  | ok a =>
      cases a with
      | some resp =>
          simp only [_run_command]
          exact ⟨_, sD, rfl, ⟨w + 1, hDfind, by omega⟩⟩
      | none =>
          simp only [_run_command, client_after]
          obtain ⟨s4, hq, hfind⟩ := complete_giveup_spec rd sD (w + 1) hDfind
          exact ⟨_, s4, hq, ⟨w + 2, hfind, by omega⟩⟩
  | respError =>
      simp only [_run_command, client_after]
      obtain ⟨s4, hq, hfind⟩ := complete_giveup_spec rd sD (w + 1) hDfind
      exact ⟨_, s4, hq, ⟨w + 2, hfind, by omega⟩⟩
  | timeout =>
      simp only [_run_command, client_after, hspawn]
      obtain ⟨s4, hq, hfind⟩ :=
        complete_giveup_spec rd (restart_language_server env sD) (w + 1) (by
          rw [(restart_frame env sD).1]
          exact hDfind)
      exact ⟨_, s4, hq, ⟨w + 2, hfind, by omega⟩⟩
  | typeErr => exact absurd hc1 h1

/-- Conditional form of `complete_second_spec`, for an arbitrary client
aliveness and arbitrary oracle outcomes: whenever the second attempt
completes without an exception, the version counter strictly
increased. -/
theorem complete_second_cases (env : Env) (rd : CompletionRequest)
    (td : TextDocumentItem) (column : Nat) (alive : Bool) (s1 : WorkerState)
    (w : Nat) (hv : dictFind s1.open_documents rd.path = some w) :
    ∀ r s2, complete_second env rd td column alive s1 = .ok (r, s2) →
      ∃ v2, dictFind s2.open_documents rd.path = some v2 ∧ w < v2 := by
  cases alive with
  | false =>
      intro r s2 hc
      unfold complete_second at hc
      rw [send_did_change_dead] at hc
      cases hc
  | true =>
      intro r s2 hc
      obtain ⟨sC, hsend, hdocs, tid, ch, hlog⟩ :=
        send_did_change_shape s1 rd.path rd.code w hv
      unfold complete_second at hc
      rw [hsend] at hc
      dsimp only at hc
      set sD : WorkerState :=
        { sC with log := sC.log ++
            [Msg.complRequest td rd.line column rd.triggered_by_symbol] }
        with hsD
      have hDfind : dictFind sD.open_documents rd.path = some (w + 1) := by
        rw [show sD.open_documents = dictSet s1.open_documents rd.path (w + 1)
          from by rw [hsD]; exact hdocs]
        exact dictFind_dictSet_self _ _ _
      cases hc1 : env.compl 1 with
      | ok a =>
          rw [hc1] at hc
          cases a with
          | some resp =>
              simp only [_run_command] at hc
              simp only [Except.ok.injEq, Prod.mk.injEq] at hc
              obtain ⟨-, rfl⟩ := hc
              exact ⟨w + 1, hDfind, by omega⟩
          | none =>
              simp only [_run_command, client_after] at hc
              exact ⟨w + 2,
                complete_giveup_cases rd true sD (w + 1) hDfind r s2 hc,
                by omega⟩
      | respError =>
          rw [hc1] at hc
          simp only [_run_command, client_after] at hc
          exact ⟨w + 2,
            complete_giveup_cases rd true sD (w + 1) hDfind r s2 hc,
            by omega⟩
      | timeout =>
          rw [hc1] at hc
          simp only [_run_command, client_after] at hc
          refine ⟨w + 2, complete_giveup_cases rd (true && env.spawn_ok)
            (restart_language_server env sD) (w + 1) (by
              rw [(restart_frame env sD).1]
              exact hDfind) r s2 hc, by omega⟩
      | typeErr =>
          rw [hc1] at hc
          simp only [_run_command] at hc
          exact absurd hc (by simp)

theorem complete_spec (env : Env) (rd : CompletionRequest) (s : WorkerState)
    (v : Nat) (hrun : s.server_status = SERVER_RUNNING)
    (hv : dictFind s.open_documents rd.path = some v)
    (h0 : env.compl 0 ≠ .typeErr) (h1 : env.compl 1 ≠ .typeErr)
    (hspawn : env.spawn_ok = true) :
    ∃ r s2, complete env rd s = .ok (r, s2) ∧
      ∃ v2, dictFind s2.open_documents rd.path = some v2 ∧ v < v2 := by
  obtain ⟨td, docs2, htd, hdocs2⟩ :=
    _text_document_shape env s.open_documents rd.path rd.code v hv
  have hfindA : dictFind docs2 rd.path = some (v + 1) := by
    rw [hdocs2]
    exact dictFind_dictSet_self _ _ _
  have hsecond : ∀ sB : WorkerState, sB.open_documents = docs2 →
      ∃ r s2, complete_second env rd td (rd.column + rd.prfx.length) true sB =
          .ok (r, s2) ∧
        ∃ v2, dictFind s2.open_documents rd.path = some v2 ∧ v < v2 := by
    intro sB hBdocs
    obtain ⟨r, s2, heq, v2, hfind, hlt⟩ :=
      complete_second_spec env rd td (rd.column + rd.prfx.length) sB (v + 1)
        (by rw [hBdocs]; exact hfindA) h1 hspawn
    exact ⟨r, s2, heq, v2, hfind, by omega⟩
  unfold complete
  rw [if_neg (by simp [hrun])]
  dsimp only
  rw [htd]
  dsimp only
  cases hc0 : env.compl 0 with
  | ok a =>
      cases a with
      | some resp =>
          simp only [_run_command]
          exact ⟨_, _, rfl, ⟨v + 1, hfindA, by omega⟩⟩
      | none =>
          simp only [_run_command, client_after]
          exact hsecond _ rfl
  | respError =>
      simp only [_run_command, client_after]
      exact hsecond _ rfl
  | timeout =>
      simp only [_run_command, client_after, hspawn]
      refine hsecond _ ?_
      rw [(restart_frame env _).1]
  | typeErr => exact absurd hc0 h0

/-- Conditional form of `complete_spec`, for arbitrary environments:
whenever `complete` completes without an exception on a registered
path, the path's version counter strictly increased. -/
theorem complete_cases (env : Env) (rd : CompletionRequest) (s : WorkerState)
    (v : Nat) (hrun : s.server_status = SERVER_RUNNING)
    (hv : dictFind s.open_documents rd.path = some v) :
    ∀ r s2, complete env rd s = .ok (r, s2) →
      ∃ v2, dictFind s2.open_documents rd.path = some v2 ∧ v < v2 := by
  intro r s2 hc
  obtain ⟨td, docs2, htd, hdocs2⟩ :=
    _text_document_shape env s.open_documents rd.path rd.code v hv
  have hfindA : dictFind docs2 rd.path = some (v + 1) := by
    rw [hdocs2]
    exact dictFind_dictSet_self _ _ _
  have hsecond : ∀ (alive : Bool) (sB : WorkerState),
      sB.open_documents = docs2 →
      complete_second env rd td (rd.column + rd.prfx.length) alive sB =
        .ok (r, s2) →
      ∃ v2, dictFind s2.open_documents rd.path = some v2 ∧ v < v2 := by
    intro alive sB hBdocs hcc
    obtain ⟨v2, hfind, hlt⟩ :=
      complete_second_cases env rd td (rd.column + rd.prfx.length) alive sB
        (v + 1) (by rw [hBdocs]; exact hfindA) r s2 hcc
    exact ⟨v2, hfind, by omega⟩
  unfold complete at hc
  rw [if_neg (by simp [hrun])] at hc
  dsimp only at hc
  rw [htd] at hc
  dsimp only at hc
  cases hc0 : env.compl 0 with
  | ok a =>
      rw [hc0] at hc
      cases a with
      | some resp =>
          simp only [_run_command] at hc
          simp only [Except.ok.injEq, Prod.mk.injEq] at hc
          obtain ⟨-, rfl⟩ := hc
          exact ⟨v + 1, hfindA, by omega⟩
      | none =>
          simp only [_run_command, client_after] at hc
          exact hsecond true _ rfl hc
  | respError =>
      rw [hc0] at hc
      simp only [_run_command, client_after] at hc
      exact hsecond true _ rfl hc
  | timeout =>
      rw [hc0] at hc
      simp only [_run_command, client_after] at hc
      refine hsecond (true && env.spawn_ok) _ ?_ hc
      rw [(restart_frame env _).1]
  | typeErr =>
      rw [hc0] at hc
      simp only [_run_command] at hc
      exact absurd hc (by simp)

/-! ### Behaviour of symbols and run_diagnostics -/

theorem symbols_spec (env : Env) (rd : SymbolsRequest) (s : WorkerState)
    (v : Nat) (hrun : s.server_status = SERVER_RUNNING)
    (hv : dictFind s.open_documents rd.path = some v)
    (hne : env.sym ≠ .typeErr) :
    ∃ r s2, symbols env rd s = .ok (r, s2) ∧
      dictFind s2.open_documents rd.path = some (v + 1) := by
  obtain ⟨td, docs2, htd, hdocs2⟩ :=
    _text_document_shape env s.open_documents rd.path rd.code v hv
  have hfindA : dictFind docs2 rd.path = some (v + 1) := by
    rw [hdocs2]
    exact dictFind_dictSet_self _ _ _
  unfold symbols
  rw [if_neg (by simp [hrun]), htd]
  dsimp only
  cases hs : env.sym with
  | ok a =>
      cases a with
      | some syms =>
          simp only [_run_command]
          exact ⟨_, _, rfl, hfindA⟩
      | none =>
          simp only [_run_command]
          exact ⟨_, _, rfl, hfindA⟩
  | respError =>
      simp only [_run_command]
      exact ⟨_, _, rfl, hfindA⟩
  | timeout =>
      simp only [_run_command]
      refine ⟨_, _, rfl, ?_⟩
      rw [(restart_frame env _).1]
      exact hfindA
  | typeErr => exact absurd hs hne

/-- Conditional form of `symbols_spec`, for arbitrary environments:
whenever `symbols` completes without an exception on a registered path,
the path's version counter was incremented exactly once. -/
theorem symbols_cases (env : Env) (rd : SymbolsRequest) (s : WorkerState)
    (v : Nat) (hrun : s.server_status = SERVER_RUNNING)
    (hv : dictFind s.open_documents rd.path = some v) :
    ∀ r s2, symbols env rd s = .ok (r, s2) →
      dictFind s2.open_documents rd.path = some (v + 1) := by
  intro r s2 hc
  obtain ⟨td, docs2, htd, hdocs2⟩ :=
    _text_document_shape env s.open_documents rd.path rd.code v hv
  have hfindA : dictFind docs2 rd.path = some (v + 1) := by
    rw [hdocs2]
    exact dictFind_dictSet_self _ _ _
  unfold symbols at hc
  rw [if_neg (by simp [hrun]), htd] at hc
  dsimp only at hc
  cases hs : env.sym with
  | ok a =>
      rw [hs] at hc
      cases a with
      | some syms =>
          simp only [_run_command] at hc
          simp only [Except.ok.injEq, Prod.mk.injEq] at hc
          obtain ⟨-, rfl⟩ := hc
          exact hfindA
      | none =>
          simp only [_run_command] at hc
          simp only [Except.ok.injEq, Prod.mk.injEq] at hc
          obtain ⟨-, rfl⟩ := hc
          exact hfindA
  | respError =>
      rw [hs] at hc
      simp only [_run_command] at hc
      simp only [Except.ok.injEq, Prod.mk.injEq] at hc
      obtain ⟨-, rfl⟩ := hc
      exact hfindA
  | timeout =>
      rw [hs] at hc
      simp only [_run_command] at hc
      simp only [Except.ok.injEq, Prod.mk.injEq] at hc
      obtain ⟨-, rfl⟩ := hc
      rw [(restart_frame env _).1]
      exact hfindA
  | typeErr =>
      rw [hs] at hc
      simp only [_run_command] at hc
      exact absurd hc (by simp)

theorem run_diagnostics_spec (env : Env) (rd : DiagRequest) (s : WorkerState)
    (hrun : s.server_status = SERVER_RUNNING) :
    ∃ s2, run_diagnostics env rd s =
        .ok ({ server_status := s.server_status
               server_pid := s.server_pid
               server_capabilities := s.server_capabilities }, s2) ∧
      s2.diagnostics = none ∧
      dictFind s2.open_documents rd.path = some 1 ∧
      s2.log = s.log ++ [Msg.didOpen
        { uri := _path_to_uri env.fs env.tmp_path rd.path
          languageId := env.langid
          version := 1
          text := ensureNewline rd.code }] ∧
      s2.server_status = s.server_status := by
  unfold run_diagnostics
  rw [if_neg (by simp [hrun])]
  dsimp only
  simp only [Bool.and_false, Bool.false_eq_true, if_false]
  rw [_text_document_of_find env (dictSet s.open_documents rd.path 0) rd.path
    rd.code 0 (dictFind_dictSet_self _ _ _)]
  dsimp only
  exact ⟨_, rfl, rfl, dictFind_dictSet_self _ _ _, rfl, rfl⟩

theorem _text_document_none (env : Env) (d : Docs) (p c : String)
    (hv : dictFind d p = none) :
    _text_document env d p c = .error .keyError := by
  unfold _text_document dictIncr
  rw [hv]

/-! ### Claim theorems -/

/-- C1, counterexample. The claim says the per-path version counter
strictly increases on each open/change sync and is reset to 0 only on a
session restart. It is false: `run_diagnostics` on the already-open
path "a.py" (version 5) resets the counter to 0 and then sends a
`didOpen` carrying version 1 — the counter decreases from 5 to 1 on a
sync that is not a restart. -/
theorem C1_counterexample :
    dictFind stRun.open_documents "a.py" = some 5 ∧
    (run_diagnostics envC { path := "a.py", code := "x = 1" } stRun).map
      (fun p => dictFind p.2.open_documents "a.py") = .ok (some 1) ∧
    (1 : Nat) < 5 := by
  decide

/-- C1 (amended): whenever a completion, calltips or symbols call
completes without an exception on a registered path, the path's version
counter strictly increased (it never decreases there — symbols
increments it exactly once); `run_diagnostics`, however, resets the
path's counter to 0 before its `didOpen`, so after it the counter is
always exactly 1; and a session restart leaves all version counters
unchanged (they are not reset to 0 on restart). -/
theorem C1_amended :
    (∀ env rd s v r s2, s.server_status = SERVER_RUNNING →
      dictFind s.open_documents rd.path = some v →
      calltips env rd s = .ok (r, s2) →
      ∃ v2, dictFind s2.open_documents rd.path = some v2 ∧ v < v2) ∧
    (∀ env rd s v r s2, s.server_status = SERVER_RUNNING →
      dictFind s.open_documents rd.path = some v →
      complete env rd s = .ok (r, s2) →
      ∃ v2, dictFind s2.open_documents rd.path = some v2 ∧ v < v2) ∧
    (∀ env rd s v r s2, s.server_status = SERVER_RUNNING →
      dictFind s.open_documents rd.path = some v →
      symbols env rd s = .ok (r, s2) →
      dictFind s2.open_documents rd.path = some (v + 1)) ∧
    (∀ env rd s, s.server_status = SERVER_RUNNING →
      ∃ r s2, run_diagnostics env rd s = .ok (r, s2) ∧
        dictFind s2.open_documents rd.path = some 1) ∧
    (∀ env s, (restart_language_server env s).open_documents =
      s.open_documents) := by
  refine ⟨?_, ?_, ?_, ?_, ?_⟩
  · intro env rd s v r s2 hrun hv hc
    exact (calltips_cases env rd s v hrun hv r s2 hc).1
  · intro env rd s v r s2 hrun hv hc
    exact complete_cases env rd s v hrun hv r s2 hc
  · intro env rd s v r s2 hrun hv hc
    exact symbols_cases env rd s v hrun hv r s2 hc
  · intro env rd s hrun
    obtain ⟨s2, heq, -, hfind, -, -⟩ := run_diagnostics_spec env rd s hrun
    exact ⟨_, s2, heq, hfind⟩
  · intro env s
    exact (restart_frame env s).1

/-- Witness for C1_amended at concrete inputs. -/
theorem C1_amended_witness :
    (∃ r s2 v2, calltips envC rdCall stRun = .ok (r, s2) ∧
      dictFind s2.open_documents "a.py" = some v2 ∧ 5 < v2) ∧
    (∃ r s2 v2, complete envC rdCompl stRun = .ok (r, s2) ∧
      dictFind s2.open_documents "a.py" = some v2 ∧ 5 < v2) ∧
    (∃ r s2, symbols envC rdSym stRun = .ok (r, s2) ∧
      dictFind s2.open_documents "b.py" = some 4) ∧
    (∃ r s2, run_diagnostics envC { path := "b.py", code := "y" } stRun =
        .ok (r, s2) ∧ dictFind s2.open_documents "b.py" = some 1) ∧
    (restart_language_server envC stRun).open_documents =
      stRun.open_documents := by
  refine ⟨?_, ?_, ?_, C1_amended.2.2.2.1 envC _ stRun rfl,
    C1_amended.2.2.2.2 envC stRun⟩
  · obtain ⟨r, s2, heq⟩ : ∃ r s2, calltips envC rdCall stRun = .ok (r, s2) :=
      ⟨_, _, rfl⟩
    obtain ⟨v2, h1, h2⟩ :=
      C1_amended.1 envC rdCall stRun 5 r s2 rfl (by decide) heq
    exact ⟨r, s2, v2, heq, h1, h2⟩
  · obtain ⟨r, s2, heq⟩ : ∃ r s2, complete envC rdCompl stRun = .ok (r, s2) :=
      ⟨_, _, rfl⟩
    obtain ⟨v2, h1, h2⟩ :=
      C1_amended.2.1 envC rdCompl stRun 5 r s2 rfl (by decide) heq
    exact ⟨r, s2, v2, heq, h1, h2⟩
  · obtain ⟨r, s2, heq⟩ : ∃ r s2, symbols envC rdSym stRun = .ok (r, s2) :=
      ⟨_, _, rfl⟩
    exact ⟨r, s2, heq,
      C1_amended.2.2.1 envC rdSym stRun 3 r s2 rfl (by decide) heq⟩

/-- C2, counterexample. The claim says no public operation ever raises
for any input. It is false: `calltips` on a path that is not in the
open-document registry raises `KeyError` (from
`open_documents[path] += 1` inside `_text_document`) even while the
server is running. -/
theorem C2_counterexample :
    stRun.server_status = SERVER_RUNNING ∧
    dictMem stRun.open_documents "ghost.py" = false ∧
    calltips envC rdGhost stRun = .error .keyError := by
  decide

/-- C2 (amended): no public operation raises provided the request path
is already present in the open-document registry, the server responses
are well-formed (the active-signature index of a non-empty
signatureHelp response is in range, and the completion/documentSymbol
requests do not raise `TypeError`), and any timeout-triggered restart
of calltips/completion respawns successfully; `run_diagnostics`,
`poll_diagnostics`, `close_document` and `change_project_folders` never
raise at all. Without the respawn proviso the guarantee fails: a
`signatureHelp` timeout whose restart cannot respawn leaves the
module-level client handle `None`, and the loop's subsequent
`client.didChange` raises `AttributeError` (last conjunct). -/
theorem C2_amended :
    (∀ env rd s, dictMem s.open_documents rd.path = true →
      sigWF (env.sig 0) = true → sigWF (env.sig 1) = true →
      env.spawn_ok = true →
      noRaise (calltips env rd s) = true) ∧
    (∀ env rd s, dictMem s.open_documents rd.path = true →
      env.compl 0 ≠ .typeErr → env.compl 1 ≠ .typeErr →
      env.spawn_ok = true →
      noRaise (complete env rd s) = true) ∧
    (∀ env rd s, dictMem s.open_documents rd.path = true →
      env.sym ≠ .typeErr → noRaise (symbols env rd s) = true) ∧
    (∀ env rd s, noRaise (run_diagnostics env rd s) = true) ∧
    (∀ rd s, noRaise (poll_diagnostics rd s) = true) ∧
    (∀ rd s, noRaise (close_document rd s) = true) ∧
    (∀ rd s, noRaise (change_project_folders rd s) = true) ∧
    (∀ env rd s, s.server_status = SERVER_RUNNING →
      dictMem s.open_documents rd.path = true →
      env.sig 0 = .timeout → env.spawn_ok = false →
      calltips env rd s = .error .attrError) := by
  refine ⟨?_, ?_, ?_, ?_, ?_, ?_, ?_, ?_⟩
  · intro env rd s hmem h0 h1 hspawn
    by_cases hrun : s.server_status = SERVER_RUNNING
    · obtain ⟨v, hv⟩ := (dictMem_iff_find _ _).mp hmem
      obtain ⟨r, s2, heq, -, -⟩ :=
        calltips_spec env rd s v hrun hv h0 h1 hspawn
      rw [heq]
      rfl
    · unfold calltips
      rw [if_pos hrun]
      rfl
  · intro env rd s hmem h0 h1 hspawn
    by_cases hrun : s.server_status = SERVER_RUNNING
    · obtain ⟨v, hv⟩ := (dictMem_iff_find _ _).mp hmem
      obtain ⟨r, s2, heq, -⟩ := complete_spec env rd s v hrun hv h0 h1 hspawn
      rw [heq]
      rfl
    · unfold complete
      rw [if_pos hrun]
      rfl
  · intro env rd s hmem hne
    by_cases hrun : s.server_status = SERVER_RUNNING
    · obtain ⟨v, hv⟩ := (dictMem_iff_find _ _).mp hmem
      obtain ⟨r, s2, heq, -⟩ := symbols_spec env rd s v hrun hv hne
      rw [heq]
      rfl
    · unfold symbols
      rw [if_pos hrun]
      rfl
  · intro env rd s
    by_cases hrun : s.server_status = SERVER_RUNNING
    · obtain ⟨s2, heq, -⟩ := run_diagnostics_spec env rd s hrun
      rw [heq]
      rfl
    · unfold run_diagnostics
      rw [if_pos hrun]
      rfl
  · intro rd s
    unfold poll_diagnostics
    cases s.diagnostics <;> rfl
  · intro rd s
    unfold close_document
    split
    · rfl
    · split <;> rfl
  · intro rd s
    unfold change_project_folders
    split <;> rfl
  · intro env rd s hrun hmem h0 hbad
    obtain ⟨v, hv⟩ := (dictMem_iff_find _ _).mp hmem
    obtain ⟨td, docs2, htd, hdocs2⟩ :=
      _text_document_shape env s.open_documents rd.path rd.code v hv
    unfold calltips
    rw [if_neg (by simp [hrun]), htd]
    dsimp only
    rw [h0]
    simp only [_run_command, catchTypeErr, keepSig, client_after, hbad,
      Bool.and_false]
    rfl

/-- Witness for C2_amended at concrete inputs. -/
theorem C2_amended_witness :
    noRaise (calltips envC rdCall stRun) = true ∧
    noRaise (complete envC rdCompl stRun) = true ∧
    noRaise (symbols envC rdSym stRun) = true ∧
    noRaise (run_diagnostics envC { path := "c.py", code := "z" } stRun) = true ∧
    noRaise (poll_diagnostics { ignore_rules := ["E501"] } stRun) = true ∧
    noRaise (close_document { path := "a.py" } stRun) = true ∧
    noRaise (change_project_folders { folders := ["/proj"] } stRun) = true ∧
    calltips envTimeout rdCall stRun = .error .attrError := by
  refine ⟨?_, ?_, ?_, ?_, ?_, ?_, ?_, ?_⟩
  · exact C2_amended.1 envC rdCall stRun (by decide) (by decide) (by decide)
      (by decide)
  · exact C2_amended.2.1 envC rdCompl stRun (by decide) (by decide)
      (by decide) (by decide)
  · exact C2_amended.2.2.1 envC rdSym stRun (by decide) (by decide)
  · exact C2_amended.2.2.2.1 envC _ stRun
  · exact C2_amended.2.2.2.2.1 _ stRun
  · exact C2_amended.2.2.2.2.2.1 _ stRun
  · exact C2_amended.2.2.2.2.2.2.1 _ stRun
  · exact C2_amended.2.2.2.2.2.2.2 envTimeout rdCall stRun rfl (by decide)
      (by decide) (by decide)

/-- C3: `calltips` issues the `signatureHelp` request at most twice,
with a full-document resync between the two attempts (the outgoing
traffic of a completed call is one request, or request / resync /
request, or request / resync / request / resync, the two requests
carrying the same document item and position); if the server answers
empty signatures on attempt 1 and non-empty signatures on attempt 2,
the result is attempt 2's normalised signature (label, parameter
labels, flattened documentation, active parameter, column); if both
attempts are empty the result is the empty tuple. -/
theorem C3_calltips (rd : CalltipRequest) (s : WorkerState) (v : Nat)
    (hrun : s.server_status = SERVER_RUNNING)
    (hv : dictFind s.open_documents rd.path = some v) :
    (∀ env, sigWF (env.sig 0) = true → sigWF (env.sig 1) = true →
      ∀ r s2, calltips env rd s = .ok (r, s2) →
        ∃ tail, s2.log = s.log ++ tail ∧ CalltipsTraffic tail) ∧
    (∀ env sh0 sh1 sig, env.sig 0 = .ok (some sh0) → sh0.signatures = [] →
      env.sig 1 = .ok (some sh1) →
      pyIndex sh1.signatures sh1.activeSignature = .ok sig →
      (calltips env rd s).map Prod.fst =
        .ok (some (sig.label, sig.parameters.map (fun p => p.label),
                   flattenDoc sig.documentation, sh1.activeParameter,
                   rd.column))) ∧
    (∀ env sh0 sh1, env.sig 0 = .ok (some sh0) → sh0.signatures = [] →
      env.sig 1 = .ok (some sh1) → sh1.signatures = [] →
      (calltips env rd s).map Prod.fst = .ok none) := by
  refine ⟨?_, ?_, ?_⟩
  · intro env _h0 _h1 r s2 hc
    exact (calltips_cases env rd s v hrun hv r s2 hc).2
  · intro env sh0 sh1 sig h0 h00 h1 hsig
    exact calltips_scenario env rd s v sh0 sh1 sig hrun hv h0 h00 h1 hsig
  · intro env sh0 sh1 h0 h00 h1 h11
    exact calltips_empty_scenario env rd s v sh0 sh1 hrun hv h0 h00 h1 h11

/-- Witness for C3_calltips at concrete inputs: `envC` answers an empty
signature list on attempt 1 and `shFull` on attempt 2; `envEmptySig`
answers an empty list on both attempts. -/
theorem C3_calltips_witness :
    (∃ r s2 tail, calltips envC rdCall stRun = .ok (r, s2) ∧
      s2.log = stRun.log ++ tail ∧ CalltipsTraffic tail) ∧
    (calltips envC rdCall stRun).map Prod.fst =
      .ok (some ("f(x, y)", ["x", "y"], "doc of f", 1, 3)) ∧
    (calltips envEmptySig rdCall stRun).map Prod.fst = .ok none := by
  have h := C3_calltips rdCall stRun 5 rfl (by decide)
  refine ⟨?_,
    h.2.1 envC shEmpty shFull sigInfoF (by decide) (by decide) (by decide)
      (by decide),
    h.2.2 envEmptySig shEmpty shEmpty (by decide) (by decide) (by decide)
      (by decide)⟩
  obtain ⟨r, s2, heq⟩ : ∃ r s2, calltips envC rdCall stRun = .ok (r, s2) :=
    ⟨_, _, rfl⟩
  obtain ⟨tail, hlog, htr⟩ := h.1 envC (by decide) (by decide) r s2 heq
  exact ⟨r, s2, tail, heq, hlog, htr⟩

/-- C4, counterexample. The claim says `run_diagnostics` sends a
`didChange` when the path is already in the open-document registry. It
is false: for the already-registered path "b.py" the only message sent
is a `didOpen` (the `didChange` branch is dead code behind
`and False`), and the version counter is reset to 1. -/
theorem C4_counterexample :
    dictMem stRun.open_documents "b.py" = true ∧
    (run_diagnostics envC { path := "b.py", code := "y = 2" } stRun).map
      (fun p => (p.2.log, dictFind p.2.open_documents "b.py")) =
      .ok ([Msg.didOpen { uri := "file:///tmp/t123", languageId := "python",
                          version := 1, text := "y = 2\n" }], some 1) := by
  decide

/-- C4 (amended): while the server is running, `run_diagnostics` clears
the diagnostics buffer to the pending state and always sends a single
`didOpen` (never a `didChange`, whether or not the path is already
registered), resetting the path's version counter to 0 so that the open
carries version 1, and returns immediately with the current server
status; when the server is not running it returns the status and does
nothing. -/
theorem C4_amended (env : Env) (rd : DiagRequest) (s : WorkerState) :
    (s.server_status = SERVER_RUNNING →
      ∃ s2, run_diagnostics env rd s =
          .ok ({ server_status := s.server_status
                 server_pid := s.server_pid
                 server_capabilities := s.server_capabilities }, s2) ∧
        s2.diagnostics = none ∧
        dictFind s2.open_documents rd.path = some 1 ∧
        s2.log = s.log ++ [Msg.didOpen
          { uri := _path_to_uri env.fs env.tmp_path rd.path
            languageId := env.langid
            version := 1
            text := ensureNewline rd.code }]) ∧
    (s.server_status ≠ SERVER_RUNNING →
      run_diagnostics env rd s =
        .ok ({ server_status := s.server_status
               server_pid := none
               server_capabilities := none }, s)) := by
  constructor
  · intro hrun
    obtain ⟨s2, heq, hdiag, hfind, hlog, -⟩ := run_diagnostics_spec env rd s hrun
    exact ⟨s2, heq, hdiag, hfind, hlog⟩
  · intro hrun
    unfold run_diagnostics
    rw [if_pos hrun]

/-- Witness for C4_amended at concrete inputs: a running state with
"b.py" already registered, and a fresh not-started state. -/
theorem C4_amended_witness :
    (∃ s2, run_diagnostics envC { path := "b.py", code := "y = 2" } stRun =
        .ok ({ server_status := stRun.server_status
               server_pid := stRun.server_pid
               server_capabilities := stRun.server_capabilities }, s2) ∧
      s2.diagnostics = none ∧
      dictFind s2.open_documents "b.py" = some 1 ∧
      s2.log = stRun.log ++ [Msg.didOpen
        { uri := _path_to_uri envC.fs envC.tmp_path "b.py"
          languageId := envC.langid
          version := 1
          text := ensureNewline "y = 2" }]) ∧
    run_diagnostics envC { path := "b.py", code := "y = 2" } initial_state =
      .ok ({ server_status := initial_state.server_status
             server_pid := none
             server_capabilities := none }, initial_state) := by
  exact ⟨(C4_amended envC { path := "b.py", code := "y = 2" } stRun).1 rfl,
    (C4_amended envC { path := "b.py", code := "y = 2" } initial_state).2
      (by decide)⟩

/-- C5: before any `publishDiagnostics` notification arrives the
diagnostics buffer is the pending empty dict and `poll_diagnostics`
returns the single-element pending sentinel `[None]`; after a
notification arrives it returns exactly the diagnostics whose message
does not start with any caller-supplied ignore rule, each mapped to its
(message, severity level, line, character-range) tuple. -/
theorem C5_poll (rd : PollRequest) (s : WorkerState) (pub : PublishParams) :
    (s.diagnostics = none → poll_diagnostics rd s = .ok ([none], s)) ∧
    (∀ res s3,
      poll_diagnostics rd (on_publish_diagnostics pub s) = .ok (res, s3) →
      (∀ t, t ∈ res → ∃ m, m ∈ pub.diagnostics ∧ t = some (diag_tuple m) ∧
        ∀ ir, ir ∈ rd.ignore_rules → pyStartsWith m.message ir = false) ∧
      (∀ m, m ∈ pub.diagnostics →
        (∀ ir, ir ∈ rd.ignore_rules → pyStartsWith m.message ir = false) →
        some (diag_tuple m) ∈ res)) := by
  constructor
  · intro h
    unfold poll_diagnostics
    rw [h]
  · intro res s3 heq
    have hd : (on_publish_diagnostics pub s).diagnostics = some pub := rfl
    unfold poll_diagnostics at heq
    rw [hd] at heq
    simp only [Except.ok.injEq, Prod.mk.injEq] at heq
    obtain ⟨hres, -⟩ := heq
    subst hres
    constructor
    · intro t ht
      rw [List.mem_filterMap] at ht
      obtain ⟨m, hm, hf⟩ := ht
      by_cases hany : rd.ignore_rules.any (fun ir => pyStartsWith m.message ir)
      · rw [if_pos hany] at hf
        cases hf
      · rw [if_neg hany] at hf
        have hany2 : rd.ignore_rules.any
            (fun ir => pyStartsWith m.message ir) = false := by
          simpa using hany
        rw [List.any_eq_false] at hany2
        refine ⟨m, hm, by cases hf; rfl, ?_⟩
        intro ir hir
        simpa using hany2 ir hir
    · intro m hm hall
      rw [List.mem_filterMap]
      refine ⟨m, hm, ?_⟩
      have hany : rd.ignore_rules.any
          (fun ir => pyStartsWith m.message ir) = false := by
        rw [List.any_eq_false]
        intro ir hir
        simp [hall ir hir]
      rw [if_neg (by simp [hany])]

/-- Witness for C5_poll: pending sentinel on `stRun` (empty buffer);
with ignoreRules = ["E501"] the message "E501 line too long" is
filtered out and "E302 expected 2 blank lines" is kept. -/
theorem C5_poll_witness :
    poll_diagnostics { ignore_rules := ["E501"] } stRun = .ok ([none], stRun) ∧
    (∀ res s3, poll_diagnostics { ignore_rules := ["E501"] }
        (on_publish_diagnostics pubEx stRun) = .ok (res, s3) →
      some (diag_tuple diagE302) ∈ res ∧ some (diag_tuple diagE501) ∉ res) := by
  have h := C5_poll { ignore_rules := ["E501"] } stRun pubEx
  refine ⟨h.1 rfl, ?_⟩
  intro res s3 heq
  obtain ⟨hsound, hcompl⟩ := h.2 res s3 heq
  constructor
  · refine hcompl diagE302 (by decide) ?_
    intro ir hir
    have : ir = "E501" := by simpa using hir
    subst this
    decide
  · intro hmem
    obtain ⟨m, hm, hteq, hrules⟩ := hsound _ hmem
    have hm2 : m = diagE501 ∨ m = diagE302 := by simpa [pubEx] using hm
    rcases hm2 with rfl | rfl
    · have := hrules "E501" (by decide)
      exact absurd this (by decide)
    · exact absurd hteq (by decide)

/-- C6: the severity mapping of `poll_diagnostics` sends a protocol
severity less than or equal to Error (1) to ERROR and everything above
it to WARNING, for all integer severities 1 through 4; the mapped level
is the second component of the tuple `poll_diagnostics` builds. -/
theorem C6_severity (sev : Int) (h1 : 1 ≤ sev) (h4 : sev ≤ 4) :
    (severity_level sev = ERROR ↔ sev ≤ DiagnosticSeverityError) ∧
    (severity_level sev = WARNING ↔ DiagnosticSeverityError < sev) ∧
    (∀ m : Diag, m.severity = sev →
      (diag_tuple m).2.1 = severity_level sev) := by
  refine ⟨?_, ?_, ?_⟩
  · unfold severity_level ERROR WARNING DiagnosticSeverityError
    by_cases h : sev ≤ 1
    · simp [h]
    · simp [h]
  · unfold severity_level ERROR WARNING DiagnosticSeverityError
    by_cases h : sev ≤ 1
    · simp [h]
    · simp [h]
      omega
  · intro m hm
    unfold diag_tuple
    rw [hm]

/-- Witness for C6_severity at severities 1 and 2. -/
theorem C6_severity_witness :
    (severity_level 1 = ERROR ↔ (1 : Int) ≤ DiagnosticSeverityError) ∧
    (severity_level 2 = WARNING ↔ DiagnosticSeverityError < 2) ∧
    (diag_tuple diagE302).2.1 = severity_level 1 := by
  exact ⟨(C6_severity 1 (by decide) (by decide)).1,
    (C6_severity 2 (by decide) (by decide)).2.1,
    (C6_severity 1 (by decide) (by decide)).2.2 diagE302 (by decide)⟩

/-- C7: when the server binary cannot be spawned,
`start_language_server` returns (it is a total function of the model)
with the status set to Error, and every subsequent `completion` call
returns the empty list without raising. -/
theorem C7_spawn_failure (env : Env) (cmd : String) (folders : List String)
    (s : WorkerState) (rd : CompletionRequest)
    (hspawn : env.spawn_ok = false) :
    (start_language_server env cmd folders s).server_status = SERVER_ERROR ∧
    complete env rd (start_language_server env cmd folders s) =
      .ok (.empty, start_language_server env cmd folders s) := by
  have hs : start_language_server env cmd folders s =
      { s with server_status := SERVER_ERROR } := by
    unfold start_language_server
    rw [hspawn]
    simp
  rw [hs]
  refine ⟨rfl, ?_⟩
  unfold complete
  rw [if_pos (by simp [SERVER_ERROR, SERVER_RUNNING])]

/-- Witness for C7_spawn_failure: the command "fake-server --stdio"
whose spawn fails. -/
theorem C7_spawn_failure_witness :
    (start_language_server envBad "fake-server --stdio" [] initial_state
      ).server_status = SERVER_ERROR ∧
    complete envBad rdCompl
        (start_language_server envBad "fake-server --stdio" [] initial_state) =
      .ok (.empty,
        start_language_server envBad "fake-server --stdio" [] initial_state) := by
  exact C7_spawn_failure envBad "fake-server --stdio" [] initial_state rdCompl
    (by decide)

/-! Congruence of the completion pipeline under response-shape changes
(for C8). -/

theorem complete_second_congr (env : Env)
    (f : Nat → CmdOutcome (Option CompletionResponse)) (rd : CompletionRequest)
    (td : TextDocumentItem) (column : Nat) (alive : Bool) (s1 : WorkerState)
    (hequiv : complEquiv (env.compl 1) (f 1)) :
    complete_second env rd td column alive s1 =
      complete_second { env with compl := f } rd td column alive s1 := by
  unfold complete_second
  cases hsend : send_did_change alive s1 rd.path rd.code with
  | error e => rfl
  | ok s2 =>
      dsimp only
      cases hc : env.compl 1 with
      | ok a =>
          cases hf : f 1 with
          | ok b =>
              rw [hc, hf] at hequiv
              cases a with
              | some r1 =>
                  cases b with
                  | some r2 =>
                      simp only [complEquiv] at hequiv
                      simp only [_run_command]
                      have hcc : complete_candidates r1 =
                          complete_candidates r2 := by
                        unfold complete_candidates
                        rw [hequiv]
                      rw [hcc]
                  | none => exact absurd hequiv (by simp [complEquiv, hc, hf])
              | none =>
                  cases b with
                  | some r2 => exact absurd hequiv (by simp [complEquiv, hc, hf])
                  | none => rfl
          | respError => exact absurd hequiv (by simp [complEquiv, hc, hf])
          | timeout => exact absurd hequiv (by simp [complEquiv, hc, hf])
          | typeErr => exact absurd hequiv (by simp [complEquiv, hc, hf])
      | respError =>
          cases hf : f 1 with
          | ok b => exact absurd hequiv (by simp [complEquiv, hc, hf])
          | respError => rfl
          | timeout => exact absurd hequiv (by simp [complEquiv, hc, hf])
          | typeErr => exact absurd hequiv (by simp [complEquiv, hc, hf])
      | timeout =>
          cases hf : f 1 with
          | ok b => exact absurd hequiv (by simp [complEquiv, hc, hf])
          | respError => exact absurd hequiv (by simp [complEquiv, hc, hf])
          | timeout => rfl
          | typeErr => exact absurd hequiv (by simp [complEquiv, hc, hf])
      | typeErr =>
          cases hf : f 1 with
          | ok b => exact absurd hequiv (by simp [complEquiv, hc, hf])
          | respError => exact absurd hequiv (by simp [complEquiv, hc, hf])
          | timeout => exact absurd hequiv (by simp [complEquiv, hc, hf])
          | typeErr => rfl

theorem complete_congr (env : Env)
    (f : Nat → CmdOutcome (Option CompletionResponse)) (rd : CompletionRequest)
    (s : WorkerState) (hequiv : ∀ n, complEquiv (env.compl n) (f n)) :
    complete env rd s = complete { env with compl := f } rd s := by
  unfold complete
  by_cases hrun : s.server_status ≠ SERVER_RUNNING
  · rw [if_pos hrun, if_pos hrun]
  · rw [if_neg hrun, if_neg hrun]
    dsimp only
    cases hfind : dictFind s.open_documents rd.path with
    | none =>
        rw [_text_document_none env _ rd.path rd.code hfind,
            _text_document_none { env with compl := f } _ rd.path rd.code hfind]
    | some v =>
        rw [_text_document_of_find env _ rd.path rd.code v hfind,
            _text_document_of_find { env with compl := f } _ rd.path rd.code v
              hfind]
        dsimp only
        have h0 := hequiv 0
        cases hc : env.compl 0 with
        | ok a =>
            cases hf : f 0 with
            | ok b =>
                rw [hc, hf] at h0
                cases a with
                | some r1 =>
                    cases b with
                    | some r2 =>
                        simp only [complEquiv] at h0
                        simp only [_run_command]
                        have hcc : complete_candidates r1 =
                            complete_candidates r2 := by
                          unfold complete_candidates
                          rw [h0]
                        rw [hcc]
                    | none => exact absurd h0 (by simp [complEquiv, hc, hf])
                | none =>
                    cases b with
                    | some r2 => exact absurd h0 (by simp [complEquiv, hc, hf])
                    | none =>
                        simp only [_run_command]
                        exact complete_second_congr env f rd _ _ _ _ (hequiv 1)
            | respError => exact absurd h0 (by simp [complEquiv, hc, hf])
            | timeout => exact absurd h0 (by simp [complEquiv, hc, hf])
            | typeErr => exact absurd h0 (by simp [complEquiv, hc, hf])
        | respError =>
            cases hf : f 0 with
            | ok b => exact absurd h0 (by simp [complEquiv, hc, hf])
            | respError =>
                simp only [_run_command]
                exact complete_second_congr env f rd _ _ _ _ (hequiv 1)
            | timeout => exact absurd h0 (by simp [complEquiv, hc, hf])
            | typeErr => exact absurd h0 (by simp [complEquiv, hc, hf])
        | timeout =>
            cases hf : f 0 with
            | ok b => exact absurd h0 (by simp [complEquiv, hc, hf])
            | respError => exact absurd h0 (by simp [complEquiv, hc, hf])
            | timeout =>
                simp only [_run_command]
                exact complete_second_congr env f rd _ _ _ _ (hequiv 1)
            | typeErr => exact absurd h0 (by simp [complEquiv, hc, hf])
        | typeErr =>
            cases hf : f 0 with
            | ok b => exact absurd h0 (by simp [complEquiv, hc, hf])
            | respError => exact absurd h0 (by simp [complEquiv, hc, hf])
            | timeout => exact absurd h0 (by simp [complEquiv, hc, hf])
            | typeErr => rfl

/-- C8: completion normalisation is shape-insensitive. A bare list and
the equivalent response wrapped in an object with an `items` field
normalise to the same item list, produce the same candidate collection,
and — for any two completion oracles whose responses are outcome-wise
equivalent up to shape — the whole `complete` operation gives identical
results. -/
theorem C8_shape (env : Env)
    (f : Nat → CmdOutcome (Option CompletionResponse)) (rd : CompletionRequest)
    (s : WorkerState) (hequiv : ∀ n, complEquiv (env.compl n) (f n)) :
    (∀ items, normalize_completions (.bare items) =
      normalize_completions (.withItems items)) ∧
    (∀ items, complete_candidates (.bare items) =
      complete_candidates (.withItems items)) ∧
    complete env rd s = complete { env with compl := f } rd s :=
  ⟨fun _ => rfl, fun _ => rfl, complete_congr env f rd s hequiv⟩

/-- Witness for C8_shape: `envC` answers a bare item list, `fWrapped`
the same items wrapped in an `items` object. -/
theorem C8_shape_witness :
    normalize_completions (.bare [itemFoo]) =
      normalize_completions (.withItems [itemFoo]) ∧
    complete_candidates (.bare [itemFoo]) =
      complete_candidates (.withItems [itemFoo]) ∧
    complete envC rdCompl stRun =
      complete { envC with compl := fWrapped } rdCompl stRun := by
  have h := C8_shape envC fWrapped rdCompl stRun (fun n => rfl)
  exact ⟨h.1 [itemFoo], h.2.1 [itemFoo], h.2.2⟩

/-- C9: whenever a document item is built for a path that is neither a
file URI already nor an existing file, the item carries the URI of the
single process-wide temporary file: any two such paths map to the same
URI, the built `TextDocumentItem` carries it, and the `didOpen` sent by
`run_diagnostics` for such a path carries it (completion, calltips and
symbols build their document items through the same `_text_document`). -/
theorem C9_tmp_uri (env : Env) (docs : Docs) (p1 p2 c : String)
    (h1 : pyStartsWith p1 "file://" = false) (h2 : p1 ∉ env.fs)
    (h3 : pyStartsWith p2 "file://" = false) (h4 : p2 ∉ env.fs) :
    (∀ td d2, _text_document env docs p1 c = .ok (td, d2) →
      td.uri = "file://" ++ env.tmp_path) ∧
    _path_to_uri env.fs env.tmp_path p1 = _path_to_uri env.fs env.tmp_path p2 ∧
    (∀ rd s r s2, s.server_status = SERVER_RUNNING → rd.path = p1 →
      run_diagnostics env rd s = .ok (r, s2) →
      s2.log = s.log ++ [Msg.didOpen
        { uri := "file://" ++ env.tmp_path
          languageId := env.langid
          version := 1
          text := ensureNewline rd.code }]) := by
  have hp1 : _path_to_uri env.fs env.tmp_path p1 = "file://" ++ env.tmp_path := by
    unfold _path_to_uri
    rw [h1]
    simp [h2]
  have hp2 : _path_to_uri env.fs env.tmp_path p2 = "file://" ++ env.tmp_path := by
    unfold _path_to_uri
    rw [h3]
    simp [h4]
  refine ⟨?_, by rw [hp1, hp2], ?_⟩
  · intro td d2 htd
    cases hfind : dictFind docs p1 with
    | none =>
        rw [_text_document_none env docs p1 c hfind] at htd
        cases htd
    | some v =>
        rw [_text_document_of_find env docs p1 c v hfind] at htd
        simp only [Except.ok.injEq, Prod.mk.injEq] at htd
        obtain ⟨htd1, -⟩ := htd
        rw [← htd1]
        exact hp1
  · intro rd s r s2 hrun hpath heq
    obtain ⟨s2b, heqb, -, -, hlog, -⟩ := run_diagnostics_spec env rd s hrun
    rw [heq] at heqb
    simp only [Except.ok.injEq, Prod.mk.injEq] at heqb
    obtain ⟨-, rfl⟩ := heqb
    rw [hlog, hpath, hp1]

/-- Witness for C9_tmp_uri on the non-existing plain paths "ghost1.py"
and "ghost2.py". -/
theorem C9_tmp_uri_witness :
    (∃ td d2, _text_document envC [("ghost1.py", 0)] "ghost1.py" "z" =
        .ok (td, d2) ∧ td.uri = "file://" ++ envC.tmp_path) ∧
    _path_to_uri envC.fs envC.tmp_path "ghost1.py" =
      _path_to_uri envC.fs envC.tmp_path "ghost2.py" ∧
    (∃ r s2, run_diagnostics envC { path := "ghost1.py", code := "z" } stRun =
        .ok (r, s2) ∧
      s2.log = stRun.log ++ [Msg.didOpen
        { uri := "file://" ++ envC.tmp_path
          languageId := envC.langid
          version := 1
          text := ensureNewline "z" }]) := by
  have h := C9_tmp_uri envC [("ghost1.py", 0)] "ghost1.py" "ghost2.py" "z"
    (by decide) (by decide) (by decide) (by decide)
  refine ⟨?_, h.2.1, ?_⟩
  · obtain ⟨td, d2, htd⟩ :
        ∃ td d2, _text_document envC [("ghost1.py", 0)] "ghost1.py" "z" =
          .ok (td, d2) := ⟨_, _, rfl⟩
    exact ⟨td, d2, htd, h.1 td d2 htd⟩
  · obtain ⟨r, s2, heq⟩ :
        ∃ r s2, run_diagnostics envC { path := "ghost1.py", code := "z" }
          stRun = .ok (r, s2) := ⟨_, _, rfl⟩
    exact ⟨r, s2, heq, h.2.2 _ stRun r s2 rfl rfl heq⟩

/-- C10: `poll_diagnostics` is a pure read. It leaves the whole worker
state (diagnostics buffer, open-document registry, server status and
log) unchanged, and a second consecutive call with the same ignore
rules and no intervening notification returns the same result. -/
theorem C10_poll_pure (rd : PollRequest) (s : WorkerState) :
    (∀ r s2, poll_diagnostics rd s = .ok (r, s2) → s2 = s) ∧
    (∀ r s2, poll_diagnostics rd s = .ok (r, s2) →
      poll_diagnostics rd s2 = .ok (r, s2)) := by
  have key : ∀ r s2, poll_diagnostics rd s = .ok (r, s2) → s2 = s := by
    intro r s2 h
    unfold poll_diagnostics at h
    cases hd : s.diagnostics <;> rw [hd] at h <;>
      simp only [Except.ok.injEq, Prod.mk.injEq] at h <;> exact h.2.symm
  refine ⟨key, ?_⟩
  intro r s2 h
  have hs := key r s2 h
  subst hs
  exact h

/-- Witness for C10_poll_pure: two consecutive polls on a state with a
delivered notification agree, and the state is untouched. -/
theorem C10_poll_pure_witness :
    poll_diagnostics { ignore_rules := ["E501"] }
        (on_publish_diagnostics pubEx stRun) =
      .ok ([some (diag_tuple diagE302)], on_publish_diagnostics pubEx stRun) := by
  exact (C10_poll_pure { ignore_rules := ["E501"] }
    (on_publish_diagnostics pubEx stRun)).2 [some (diag_tuple diagE302)]
    (on_publish_diagnostics pubEx stRun) (by decide)

end LangServer
